import Mathlib

/-!
Verification development for the rax25 AX.25 connected-mode engine.

Shallow embedding of the Rust sources:
  src/lib.rs   : address codec, frame codec, KISS escaping
  src/state.rs : connection data, timers (as running flags), state machine

Conventions used throughout:
  * Rust u8 values are Nat; where a Rust shift can wrap we take the result
    mod 256 explicitly.
  * Rust functions that can panic (assert, unwrap, todo, slice-index out of
    bounds) or diverge (unbounded loops) return Option / a result type with
    an explicit failure constructor; a fueled loop returns none when the
    Rust loop would not terminate, with fuel chosen so that fuel exhaustion
    coincides with actual divergence.
  * Wall-clock quantities (Instant, Duration: srt, t1v, t3v, timer expiry
    deadlines) are not carried in the model; timers are reduced to their
    running flag, which is the only part the state machine branches on.
    Data.select_t1_value mutates only the smoothed round-trip time and is
    therefore the identity on the modelled state.
-/

namespace AX25

/-! KISS constants and codec, from src/lib.rs. -/

def KISS_FEND : Nat := 0xC0
def KISS_FESC : Nat := 0xDB
def KISS_TFEND : Nat := 0xDC
def KISS_TFESC : Nat := 0xDD

/-- Body of the escape loop in lib.rs escape: each input byte becomes one or
two output bytes. -/
def escapeBody : List Nat → List Nat
  | [] => []
  | b :: rest =>
    (if b = KISS_FEND then [KISS_FESC, KISS_TFEND]
     else if b = KISS_FESC then [KISS_FESC, KISS_TFESC]
     else [b]) ++ escapeBody rest

/-- lib.rs escape: FEND, port/type byte 0, escaped payload, FEND. -/
def escape (bytes : List Nat) : List Nat :=
  KISS_FEND :: 0 :: (escapeBody bytes ++ [KISS_FEND])

/-- Loop of lib.rs find_frame: scan for the first two FEND bytes. -/
def find_frame_go : List Nat → Nat → Option Nat → Option (Nat × Nat)
  | [], _, _ => none
  | v :: rest, i, st =>
    if v = KISS_FEND then
      match st with
      | some start => some (start, i)
      | none => find_frame_go rest (i + 1) (some i)
    else find_frame_go rest (i + 1) st

/-- lib.rs find_frame. -/
def find_frame (vec : List Nat) : Option (Nat × Nat) :=
  find_frame_go vec 0 none

/-- lib.rs unescape; the is_escaped flag is the Bool argument. The panic on
an invalid escape sequence is modelled as none. -/
def unescape_go : List Nat → Bool → Option (List Nat)
  | [], _ => some []
  | byte :: rest, true =>
    if byte = KISS_TFESC then (unescape_go rest false).map (KISS_FESC :: ·)
    else if byte = KISS_TFEND then (unescape_go rest false).map (KISS_FEND :: ·)
    else none
  | byte :: rest, false =>
    if byte = KISS_FESC then unescape_go rest true
    else (unescape_go rest false).map (byte :: ·)

/-- lib.rs unescape. -/
def unescape (data : List Nat) : Option (List Nat) :=
  unescape_go data false

/-! in_range, from src/state.rs.

The Rust loop is unbounded.  Starting from t = va the loop steps
t := (t+1) % modulus, so after the first step t stays below modulus and
within modulus further steps visits every residue.  Hence any terminating
run of the Rust loop finishes within modulus + 1 iterations, and the fueled
version below returns none exactly when the Rust loop diverges (or, for
modulus = 0, panics on division by zero). -/

def in_range_go (nr vs modulus : Nat) : Nat → Nat → Option Bool
  | 0, _ => none
  | fuel + 1, t =>
    if t = nr then some true
    else if t = vs then some false
    else in_range_go nr vs modulus fuel ((t + 1) % modulus)

/-- state.rs in_range: walking va, va+1, ... does it hit nr before vs? -/
def in_range (va nr vs modulus : Nat) : Option Bool :=
  in_range_go nr vs modulus (modulus + 1) va

/-- Cyclic distance from a up to b, mod m: the number of (+1 mod m) steps
from a to b when both are below m. -/
def cdist (a b m : Nat) : Nat := (b + m - a) % m

/-! Address codec, from src/lib.rs.  Callsign strings are List Char. -/

/-- Rust char::to_uppercase restricted to the ASCII range that can occur
here (every char fed to it is a u8 shifted right once, hence below 128). -/
def upChar (c : Char) : Char :=
  if 'a' ≤ c ∧ c ≤ 'z' then Char.ofNat (c.toNat - 32) else c

def toUpper (s : List Char) : List Char := s.map upChar

/-- Rust char::is_whitespace restricted to chars below 128:
space and U+0009..U+000D. -/
def isWs (c : Char) : Bool := c = ' ' ∨ (9 ≤ c.toNat ∧ c.toNat ≤ 13)

/-- Rust str::trim_end: drop trailing whitespace. -/
def trimEnd (s : List Char) : List Char :=
  (s.reverse.dropWhile isWs).reverse

def isCallChar (c : Char) : Bool :=
  ('A' ≤ c ∧ c ≤ 'Z') ∨ ('0' ≤ c ∧ c ≤ '9')

def isDigitChar (c : Char) : Bool := '0' ≤ c ∧ c ≤ '9'

/-- The SSID part of the callsign regex: [0-9] or 1[0-5]. -/
def validSsidChars : List Char → Bool
  | [c] => isDigitChar c
  | [c, d] => c = '1' ∧ '0' ≤ d ∧ d ≤ '5'
  | _ => false

/-- The callsign regex of Addr::new:
a 3-6 char [A-Z0-9] base, optionally followed by - and an SSID 0..15
written without leading zeros. -/
def validCall (s : List Char) : Bool :=
  let base := s.takeWhile (fun c => c ≠ '-')
  let rest := s.drop base.length
  (3 ≤ base.length ∧ base.length ≤ 6 ∧ base.all isCallChar) ∧
    (rest = [] ∨ (rest.head? = some '-' ∧ validSsidChars rest.tail))

/-- AX.25 address (lib.rs Addr): callsign text plus the four extra bits. -/
structure Addr where
  t : List Char
  rbit_ext : Bool
  highbit : Bool
  lowbit : Bool
  rbit_dama : Bool
deriving DecidableEq, Repr

/-- Addr::new: uppercase, validate against the callsign regex, extra bits
all clear.  The Err return is none. -/
def Addr.new (s : List Char) : Option Addr :=
  let s := toUpper s
  if validCall s then some ⟨s, false, false, false, false⟩ else none

/-- Addr::new_bits. -/
def Addr.new_bits (s : List Char) (lowbit highbit rbit_ext rbit_dama : Bool) :
    Option Addr :=
  (Addr.new s).map fun a =>
    { a with lowbit := lowbit, highbit := highbit,
             rbit_ext := rbit_ext, rbit_dama := rbit_dama }

/-- u8::to_string for the SSID values that can occur (always below 100). -/
def natToChars (n : Nat) : List Char :=
  if n < 10 then [Char.ofNat (48 + n)]
  else [Char.ofNat (48 + n / 10), Char.ofNat (48 + n % 10)]

/-- str::parse::<u8> on a digit string (no sign handling: only digit
strings reach it here); none on empty, non-digit or overflowing input,
which makes the caller's unwrap panic. -/
def charsToNat : List Char → Option Nat
  | [] => none
  | s =>
    if s.all isDigitChar then
      let v := s.foldl (fun acc c => acc * 10 + (c.toNat - 48)) 0
      if v ≤ 255 then some v else none
    else none

/-- split('-') element 1, when it exists: the chars after the first dash
and before any second dash. -/
def afterDash (s : List Char) : Option (List Char) :=
  match s.dropWhile (fun c => c ≠ '-') with
  | [] => none
  | _ :: rest => some (rest.takeWhile (fun c => c ≠ '-'))

/-- Addr::parse: 7 bytes; the first six hold the callsign chars shifted
left one bit, the seventh the SSID and the four extra bits. -/
def Addr.parse (bytes : List Nat) : Option Addr :=
  if bytes.length = 7 then
    let b6 := bytes.getD 6 0
    let call0 := trimEnd ((bytes.take 6).map (fun c => Char.ofNat (c >>> 1)))
    let ssid := (b6 >>> 1) &&& 15
    let call := if ssid > 0 then call0 ++ '-' :: natToChars ssid else call0
    Addr.new_bits call (b6 &&& 1 ≠ 0) (b6 &&& 0x80 ≠ 0)
      (b6 &&& 0x40 = 0) (b6 &&& 0x20 = 0)
  else none

/-- Addr::serialize.  none models the unwrap panic on an unparsable SSID
segment (never reached for addresses whose text passed the regex). -/
def Addr.serialize (a : Addr) (lowbit highbit rbit_ext rbit_dama : Bool) :
    Option (List Nat) :=
  let base := (a.t.take 6).takeWhile (fun c => c ≠ '-')
  let head := base.map (fun ch => ((ch.toNat % 256) <<< 1) % 256) ++
    List.replicate (6 - base.length) ((' '.toNat <<< 1) % 256)
  let ssid? := match afterDash a.t with
    | none => some 0
    | some s => charsToNat s
  ssid?.map fun ssid =>
    head ++ [((ssid <<< 1) % 256) |||
      (if rbit_ext then 0 else 0x40) |||
      (if rbit_dama then 0 else 0x20) |||
      (if lowbit then 1 else 0) |||
      (if highbit then 0x80 else 0)]

/-! Frame codec, from src/lib.rs. -/

/-- lib.rs Iframe, field for field. -/
structure Iframe where
  nr : Nat
  ns : Nat
  poll : Bool
  pid : Nat
  payload : List Nat
deriving DecidableEq, Repr

/-- lib.rs PacketType; the per-type structs (Sabm, Rr, ...) are inlined as
constructor fields, keeping their field names and order. -/
inductive PacketType where
  | Sabm (poll : Bool)
  | Sabme (poll : Bool)
  | Ua (poll : Bool)
  | Dm (poll : Bool)
  | Disc (poll : Bool)
  | Iframe (i : Iframe)
  | Rr (poll : Bool) (nr : Nat)
  | Rnr (poll : Bool) (nr : Nat)
  | Rej (poll : Bool) (nr : Nat)
  | Srej (poll : Bool) (nr : Nat)
  | Frmr (poll : Bool)
  | Xid (poll : Bool)
  | Ui (push : Bool) (payload : List Nat)
  | Test (poll : Bool) (payload : List Nat)
deriving DecidableEq, Repr

/-- lib.rs Packet. -/
structure Packet where
  src : Addr
  dst : Addr
  digipeater : List Addr
  rr_extseq : Bool
  command_response : Bool
  command_response_la : Bool
  rr_dist1 : Bool
  packet_type : PacketType
deriving DecidableEq, Repr

def CONTROL_SABM : Nat := 0x2F
def CONTROL_SABME : Nat := 0x6F
def CONTROL_UI : Nat := 0x03
def CONTROL_DISC : Nat := 0x43
def CONTROL_DM : Nat := 0x0F
def CONTROL_UA : Nat := 0x63
def CONTROL_TEST : Nat := 0xE3
def CONTROL_XID : Nat := 0xAF
def CONTROL_FRMR : Nat := 0x87
def CONTROL_RR : Nat := 0x01
def CONTROL_RNR : Nat := 0x05
def CONTROL_REJ : Nat := 0x09
def CONTROL_SREJ : Nat := 0x0D
def CONTROL_IFRAME : Nat := 0x00
def CONTROL_POLL : Nat := 0x10
def NR_MASK : Nat := 0xE0
def TYPE_MASK : Nat := 0x03
def NO_L3 : Nat := 0xF0

def pollBit (b : Bool) : Nat := if b then CONTROL_POLL else 0

/-- The control (and for I frames PID/payload) bytes appended by
Packet::serialize for each packet type.  USE_FCS is false so no FCS is
appended. -/
def PacketType.controlBytes (pt : PacketType) (ext : Bool) : List Nat :=
  match pt with
  | .Sabm s => if ext then [CONTROL_SABME ||| pollBit s] else [CONTROL_SABM ||| pollBit s]
  | .Sabme s => [CONTROL_SABME ||| pollBit s]
  | .Ua s => [CONTROL_UA ||| pollBit s]
  | .Disc s => [CONTROL_DISC ||| pollBit s]
  | .Dm s => [CONTROL_DM ||| pollBit s]
  | .Frmr s => [CONTROL_FRMR ||| pollBit s]
  | .Ui push _ => [CONTROL_UI ||| pollBit push]
  | .Xid s => [CONTROL_XID ||| pollBit s]
  | .Test s payload => (CONTROL_TEST ||| pollBit s) :: payload
  | .Rr s nr =>
    if ext then [CONTROL_RR, (((nr <<< 1) % 256) &&& 0xFE) ||| (if s then 1 else 0)]
    else [CONTROL_RR ||| pollBit s ||| (((nr <<< 5) % 256) &&& NR_MASK)]
  | .Rnr s nr =>
    if ext then [CONTROL_RNR, (((nr <<< 1) % 256) &&& 0xFE) ||| (if s then 1 else 0)]
    else [CONTROL_RNR ||| pollBit s ||| (((nr <<< 5) % 256) &&& NR_MASK)]
  | .Rej s nr =>
    if ext then [CONTROL_REJ, (((nr <<< 1) % 256) &&& 0xFE) ||| (if s then 1 else 0)]
    else [CONTROL_REJ ||| pollBit s]
  | .Srej s nr =>
    if ext then [CONTROL_SREJ, (((nr <<< 1) % 256) &&& 0xFE) ||| (if s then 1 else 0)]
    else [CONTROL_SREJ ||| pollBit s]
  | .Iframe i =>
    (if ext then
      [CONTROL_IFRAME ||| (((i.ns <<< 1) % 256) &&& 0xFE),
       (((i.nr <<< 1) % 256) &&& 0xFE) ||| (if i.poll then 1 else 0)]
    else
      [CONTROL_IFRAME ||| pollBit i.poll |||
        (((i.nr <<< 5) % 256) &&& 0xE0) ||| (((i.ns <<< 1) % 256) &&& 0x0E)])
      ++ i.pid :: i.payload

/-- Packet::serialize.  none models the two panics: the assert_ne on
command_response vs command_response_la, and the address serializer
unwrap.  Address order and the assert position mirror the source: dst
first, then the assert, then src. -/
def Packet.serialize (p : Packet) (ext : Bool) : Option (List Nat) :=
  match p.dst.serialize false p.command_response p.rr_dist1 false with
  | none => none
  | some d =>
    if p.command_response = p.command_response_la then none
    else
      match p.src.serialize p.digipeater.isEmpty p.command_response_la ext false with
      | none => none
      | some s => some (d ++ s ++ p.packet_type.controlBytes ext)

/-- Result of Packet::parse: Ok, Err, or a panic
(todo on an unknown U control, or slice indexing past the end). -/
inductive ParseResult where
  | ok (p : Packet)
  | err
  | panicked
deriving DecidableEq, Repr

/-- The dispatch on the low two bits of control1 at the end of
Packet::parse, after poll/nr/ns and the remaining bytes were extracted. -/
def parseBody (dst src : Addr) (ext : Bool) (control1 : Nat) (poll : Bool)
    (nr ns : Nat) (rest : List Nat) : ParseResult :=
  let mk (pt : PacketType) : ParseResult :=
    .ok { src := src, dst := dst, command_response := dst.highbit,
          command_response_la := src.highbit, rr_dist1 := dst.rbit_ext,
          rr_extseq := ext, digipeater := [], packet_type := pt }
  let t := control1 &&& TYPE_MASK
  if t = 0 ∨ t = 2 then
    match rest with
    | [] => .panicked
    | _ :: payload => mk (.Iframe ⟨nr, ns, poll, NO_L3, payload⟩)
  else if t = 1 then
    let c := control1 &&& 0x0F
    if c = CONTROL_RR then mk (.Rr poll nr)
    else if c = CONTROL_RNR then mk (.Rnr poll nr)
    else if c = CONTROL_REJ then mk (.Rej poll nr)
    else if c = CONTROL_SREJ then mk (.Srej poll nr)
    else .panicked
  else if t = 3 then
    let c := control1 &&& 0xEF
    if c = CONTROL_SABME then mk (.Sabme poll)
    else if c = CONTROL_SABM then mk (.Sabm poll)
    else if c = CONTROL_UA then mk (.Ua poll)
    else if c = CONTROL_DISC then mk (.Disc poll)
    else if c = CONTROL_DM then mk (.Dm poll)
    else if c = CONTROL_FRMR then mk (.Frmr poll)
    else if c = CONTROL_UI then mk (.Ui poll rest)
    else if c = CONTROL_XID then mk (.Xid poll)
    else if c = CONTROL_TEST then mk (.Test poll rest)
    else .panicked
  else .panicked

/-- Packet::parse (USE_FCS is false, so no FCS stripping). -/
def Packet.parse (bytes : List Nat) : ParseResult :=
  if bytes.length < 15 then .err
  else
    match Addr.parse (bytes.take 7), Addr.parse ((bytes.drop 7).take 7) with
    | some dst, some src =>
      let ext := src.rbit_ext
      let control1 := bytes.getD 14 0
      if !ext || control1 &&& TYPE_MASK = 3 then
        parseBody dst src ext control1 (control1 &&& CONTROL_POLL = CONTROL_POLL)
          ((control1 >>> 5) &&& 7) ((control1 >>> 1) &&& 7) (bytes.drop 15)
      else if bytes.length < 16 then .err
      else
        let control2 := bytes.getD 15 0
        parseBody dst src ext control1 (control2 &&& 1 = 1)
          ((control2 >>> 1) &&& 127) ((control1 >>> 1) &&& 127) (bytes.drop 16)
    | _, _ => .err

/-- The packet shapes whose control information survives the
serialize-reparse cycle (see the Rej/Srej, Sabm and Ui counterexamples). -/
def CtlOk (ext : Bool) (pt : PacketType) : Prop :=
  match pt with
  | .Sabm _ => ext = false
  | .Ui _ payload => payload = []
  | .Rr _ nr => if ext then nr ≤ 127 else nr ≤ 7
  | .Rnr _ nr => if ext then nr ≤ 127 else nr ≤ 7
  | .Rej _ nr => if ext then nr ≤ 127 else nr = 0
  | .Srej _ nr => if ext then nr ≤ 127 else nr = 0
  | .Iframe i => i.pid = NO_L3 ∧
      (if ext then i.nr ≤ 127 ∧ i.ns ≤ 127 else i.nr ≤ 7 ∧ i.ns ≤ 7)
  | _ => True

/-- The exclusions under which the parse-serialize-parse cycle provably
reproduces the packet: mod-8 REJ/SREJ lose a nonzero N(R), SABM over a
mod-128 link serializes as SABME, and UI payloads are dropped. -/
def CtlExcl (p : Packet) : Prop :=
  match p.packet_type with
  | .Sabm _ => p.rr_extseq = false
  | .Ui _ payload => payload = []
  | .Rej _ nr => p.rr_extseq = true ∨ nr = 0
  | .Srej _ nr => p.rr_extseq = true ∨ nr = 0
  | _ => True

/-! State machine, from src/state.rs. -/

def DEFAULT_MTU_OUT : Nat := 256
def DEFAULT_MTU_IN : Nat := 65535
def MAX_OBUF_SIZE : Nat := 100000000
def DEFAULT_N2 : Nat := 10

/-- DLError codes, state.rs. -/
inductive DlError where
  | A | B | C | D | E | F | G | H | I | J | K | L | M | N | O | P | Q | R | S | T | U | V
deriving DecidableEq, Repr

/-- state.rs Timer, reduced to its running flag (the expiry Instant is
wall-clock data the state machine itself never branches on; see the header
comment). -/
structure Timer where
  running : Bool
deriving DecidableEq, Repr

/-- state.rs Event.  Packet-struct payloads are inlined field by field. -/
inductive Event where
  | connect (addr : Addr) (ext : Bool)
  | disconnect
  | data (payload : List Nat)
  | t1
  | t3
  | sabm (poll : Bool) (src : Addr)
  | sabme (poll : Bool) (src : Addr)
  | disc (poll : Bool)
  | dm (poll : Bool)
  | ua (poll : Bool)
  | frmr (poll : Bool)
  | ui (push : Bool) (payload : List Nat) (command : Bool)
  | test (poll : Bool) (payload : List Nat) (command : Bool)
  | xid (poll : Bool) (command : Bool)
  | rr (poll : Bool) (nr : Nat) (command : Bool)
  | rnr (poll : Bool) (nr : Nat)
  | rej (poll : Bool) (nr : Nat)
  | srej (poll : Bool) (nr : Nat)
  | iframe (i : Iframe) (command : Bool)
deriving DecidableEq, Repr

/-- The five concrete states of the machine (the Rust Connected struct
carries a ConnectedState sub-enum; here Connected/TimerRecovery are two
StateId values). -/
inductive StateId where
  | disconnected
  | awaitingConnection
  | awaitingRelease
  | connected
  | timerRecovery
deriving DecidableEq, Repr

/-- state.rs Action. -/
inductive Action where
  | state (s : StateId)
  | dlError (e : DlError)
  | sendUa (pf : Bool)
  | sendRr (pf : Bool) (nr : Nat) (command : Bool)
  | sendRej (pf : Bool) (nr : Nat)
  | sendRnr (pf : Bool) (nr : Nat) (command : Bool)
  | sendDisc (pf : Bool)
  | sendIframe (i : Iframe)
  | sendDm (pf : Bool)
  | sendSabm (pf : Bool)
  | deliver (payload : List Nat)
  | eof
deriving DecidableEq, Repr

/-- state.rs Res. -/
inductive Res where
  | NoneR
  | EOF
  | SomeR (payload : List Nat)
deriving DecidableEq, Repr

/-- state.rs ReturnEvent. -/
inductive ReturnEvent where
  | packet (p : Packet)
  | dlError (e : DlError)
  | data (r : Res)
deriving DecidableEq, Repr

/-- state.rs Data, without the wall-clock Duration fields (srt_default,
srt, t1v, t3v); timers carry only their running flag. -/
structure Data where
  me : Addr
  peer : Option Addr
  layer3_initiated : Bool
  t1 : Timer
  t3 : Timer
  vs : Nat
  va : Nat
  vr : Nat
  n1 : Nat
  n2 : Nat
  rc : Nat
  modulus : Nat
  peer_receiver_busy : Bool
  reject_exception : Bool
  able_to_establish : Bool
  sreject_exception : Nat
  own_receiver_busy : Bool
  acknowledge_pending : Bool
  srej_enabled : Bool
  k : Nat
  iframe_queue : List (List Nat)
  obuf : List Nat
  mtu_out : Nat
  iframe_resend_queue : List Iframe
deriving DecidableEq, Repr

/-- Data::new. -/
def Data.new (me : Addr) : Data where
  me := me
  peer := none
  n1 := DEFAULT_MTU_IN
  layer3_initiated := false
  t1 := ⟨false⟩
  t3 := ⟨false⟩
  vs := 0
  va := 0
  vr := 0
  n2 := DEFAULT_N2
  rc := 0
  k := 7
  modulus := 8
  peer_receiver_busy := false
  reject_exception := false
  sreject_exception := 0
  srej_enabled := false
  acknowledge_pending := false
  own_receiver_busy := false
  iframe_queue := []
  mtu_out := DEFAULT_MTU_OUT
  obuf := []
  iframe_resend_queue := []
  able_to_establish := false

/-- Data::ui_check (borrows self immutably). -/
def Data.ui_check (d : Data) (command : Bool) (len : Nat) : List Action :=
  if !command then [.dlError .Q]
  else if len > d.n1 then [.dlError .K]
  else []

/-- Data::clear_exception_conditions (the 2017-spec iframe-queue clear
included). -/
def Data.clear_exception_conditions (d : Data) : Data :=
  { d with peer_receiver_busy := false, reject_exception := false,
           own_receiver_busy := false, acknowledge_pending := false,
           sreject_exception := 0, iframe_queue := [] }

/-- Data::clear_iframe_queue. -/
def Data.clear_iframe_queue (d : Data) : Data :=
  { d with iframe_queue := [], iframe_resend_queue := [] }

/-- Data::establish_data_link. -/
def Data.establish_data_link (d : Data) : Data × Action :=
  let d := d.clear_exception_conditions
  ({ d with rc := 1, t3 := ⟨false⟩, t1 := ⟨true⟩ }, .sendSabm true)

/-- Data::nr_error_recovery. -/
def Data.nr_error_recovery (d : Data) : Data × List Action :=
  let d := { d with layer3_initiated := false }
  let (d, a) := d.establish_data_link
  (d, [.dlError .J, a])

/-- Data::set_version_2_2. -/
def Data.set_version_2_2 (d : Data) : Data :=
  { d with modulus := 128, k := 32, n2 := 10 }

/-- Data::set_version_2. -/
def Data.set_version_2 (d : Data) : Data :=
  { d with modulus := 8, k := 4, n2 := 10 }

/-- Data::select_t1_value mutates only the smoothed round-trip time SRT, a
duration not carried in this model, so here it is the identity.  (Its
t1_expired branch reads the wall clock; no modelled field depends on
it.) -/
def Data.select_t1_value (d : Data) : Data := d

/-- Data::enquiry_response. -/
def Data.enquiry_response (d : Data) (pf : Bool) : Data × Action :=
  let d := { d with acknowledge_pending := false }
  if d.own_receiver_busy then (d, .sendRnr pf d.vr false)
  else (d, .sendRr pf d.vr false)

/-- Data::transmit_enquiry. -/
def Data.transmit_enquiry (d : Data) : Data × Action :=
  let d := { d with acknowledge_pending := false, t1 := ⟨true⟩ }
  if d.own_receiver_busy then (d, .sendRnr true d.vr true)
  else (d, .sendRr true d.vr true)

/-- Data::check_need_for_response. -/
def Data.check_need_for_response (d : Data) (command pf : Bool) :
    Data × List Action :=
  if command ∧ pf then
    let (d, a) := d.enquiry_response true
    (d, [a])
  else if !command ∧ pf then (d, [.dlError .A])
  else (d, [])

/-- Data::invoke_retransmission. -/
def Data.invoke_retransmission (d : Data) (_nr : Nat) : Data × List Action :=
  (d, d.iframe_resend_queue.map .sendIframe)

/-- The while loop of Data::update_ack: pop the front of the resend queue
and step va until va = nr.  none models both the assert on an empty queue
(a panic) and fuel exhaustion; any terminating run of the Rust loop takes
at most modulus + 1 iterations (va enters [0, modulus) after one step), so
with fuel modulus + 1 fuel exhaustion coincides with divergence. -/
def Data.update_ack_go : Nat → Data → Nat → Option Data
  | 0, _, _ => none
  | fuel + 1, d, nr =>
    if d.va = nr then some d
    else
      match d.iframe_resend_queue with
      | [] => none
      | _ :: q =>
        Data.update_ack_go fuel
          { d with iframe_resend_queue := q, va := (d.va + 1) % d.modulus } nr

def Data.update_ack_loop (d : Data) (nr : Nat) : Option Data :=
  Data.update_ack_go (d.modulus + 1) d nr

/-- One pass of the loop in Data::flush.  The fuel is the initial obuf
length plus one: when mtu_out is at least 1 every iteration consumes at
least one buffered byte, and when mtu_out = 0 the Rust loop spins forever,
which the exhausted fuel reports as none. -/
def Data.flush_go : Nat → Data → Option (Data × List Action)
  | 0, _ => none
  | fuel + 1, d =>
    if d.obuf = [] then some (d, [])
    else if d.vs = (d.va + d.k) % d.modulus then some (d, [])
    else
      let n := min d.mtu_out d.obuf.length
      let payload := d.obuf.take n
      let ns := d.vs
      let d := { d with obuf := d.obuf.drop n,
                        vs := (d.vs + 1) % d.modulus,
                        acknowledge_pending := false }
      let d := { d with t3 := if !d.t1.running then ⟨false⟩ else d.t3,
                        t1 := if !d.t1.running then ⟨true⟩ else d.t1 }
      let i : Iframe := ⟨d.vr, ns, false, 0xF0, payload⟩
      let d := { d with iframe_resend_queue := d.iframe_resend_queue ++ [i] }
      match Data.flush_go fuel d with
      | none => none
      | some (d, acts) => some (d, .sendIframe i :: acts)

/-- Data::flush. -/
def Data.flush (d : Data) : Option (Data × List Action) :=
  if d.peer_receiver_busy then some (d, [])
  else Data.flush_go (d.obuf.length + 1) d

/-- Data::update_ack: the va-advancing loop, then flush. -/
def Data.update_ack (d : Data) (nr : Nat) : Option (Data × List Action) :=
  (d.update_ack_loop nr).bind Data.flush

/-- Data::check_iframe_acked. -/
def Data.check_iframe_acked (d : Data) (nr : Nat) : Option (Data × List Action) :=
  if d.peer_receiver_busy then
    let d := { d with t3 := ⟨false⟩ }
    let d := { d with t1 := if !d.t1.running then ⟨true⟩ else d.t1 }
    d.update_ack nr
  else if nr = d.vs then
    let d := { d with t1 := ⟨false⟩, t3 := ⟨true⟩ }
    (d.select_t1_value).update_ack nr
  else if nr ≠ d.va then
    let d := { d with t1 := ⟨true⟩ }
    d.update_ack nr
  else some (d, [])

/-! The per-state event handlers.  Each mirrors the corresponding impl in
state.rs; events without an override fall to the State trait defaults
(which at most stop the fired timer). -/

/-- Trait default for T1: stop the timer, emit nothing. -/
def defaultT1 (d : Data) : Data × List Action := ({ d with t1 := ⟨false⟩ }, [])

/-- Trait default for T3: stop the timer, emit nothing. -/
def defaultT3 (d : Data) : Data × List Action := ({ d with t3 := ⟨false⟩ }, [])

/-- Disconnected::sabm_and_sabme.  (The srt/t1v assignments touch only
unmodelled durations.) -/
def Disconnected.sabm_and_sabme (d : Data) (src : Addr) (pf : Bool) :
    Data × List Action :=
  if !d.able_to_establish then (d, [.sendDm pf])
  else
    let d := d.clear_exception_conditions
    let d := { d with vs := 0, va := 0, vr := 0, t3 := ⟨true⟩, rc := 0,
                      peer := some src }
    (d, [.sendUa pf, .state .connected])

/-- Disconnected impl of the State trait. -/
def Disconnected.handle (d : Data) (e : Event) : Data × List Action :=
  match e with
  | .connect addr ext =>
    let d := { d with modulus := if ext then 128 else 8,
                      peer := some addr, layer3_initiated := true }
    let (d, a) := d.establish_data_link
    (d, [.state .awaitingConnection, a])
  | .disconnect => (d, [])
  | .ui push payload cr =>
    (d, d.ui_check cr payload.length ++ if push then [.sendDm true] else [])
  | .sabm poll src => Disconnected.sabm_and_sabme d.set_version_2 src poll
  | .sabme poll src => Disconnected.sabm_and_sabme d.set_version_2_2 src poll
  | .dm _ => (d, [])
  | .ua _ => (d, [.dlError .C, .dlError .D])
  | .disc poll => (d, [.sendDm poll])
  | .t1 => defaultT1 d
  | .t3 => defaultT3 d
  | _ => (d, [])

/-- AwaitingConnection impl of the State trait. -/
def AwaitingConnection.handle (d : Data) (e : Event) : Data × List Action :=
  match e with
  | .t1 =>
    let d := { d with t1 := ⟨false⟩ }
    if d.rc = d.n2 then
      (d.clear_iframe_queue, [.dlError .G, .state .disconnected])
    else
      let d := ({ d with rc := d.rc + 1 }).select_t1_value
      ({ d with t1 := ⟨true⟩ }, [.sendSabm true])
  | .ua poll =>
    if !poll then (d, [.dlError .D])
    else
      let d := { d with t1 := ⟨false⟩, t3 := ⟨true⟩,
                        vs := 0, va := 0, vr := 0, rc := 0 }
      (d.select_t1_value, [.state .connected])
  | .sabm poll _ => (d, [.sendUa poll])
  | .sabme poll _ => (d, [.sendDm poll])
  | .disconnect =>
    ({ d with t1 := ⟨false⟩ }, [.sendDisc true, .state .disconnected])
  | .t3 => defaultT3 d
  | _ => (d, [])

/-- AwaitingRelease impl of the State trait. -/
def AwaitingRelease.handle (d : Data) (e : Event) : Data × List Action :=
  match e with
  | .dm poll =>
    if !poll then (d, [])
    else ({ d with t1 := ⟨false⟩ }, [.state .disconnected])
  | .ua poll =>
    if !poll then (d, [.dlError .D])
    else ({ d with t1 := ⟨false⟩ }, [.state .disconnected])
  | .t1 =>
    let d := { d with t1 := ⟨false⟩ }
    if d.rc = d.n2 then
      ({ d with t3 := ⟨false⟩ }, [.dlError .H, .state .disconnected])
    else
      let d := ({ d with rc := d.rc + 1 }).select_t1_value
      ({ d with t1 := ⟨true⟩ }, [.sendDisc true])
  | .disconnect =>
    ({ d with t1 := ⟨false⟩ }, [.sendDm false, .state .disconnected])
  | .t3 => defaultT3 d
  | _ => (d, [])

/-- state.rs ConnectedState. -/
inductive ConnectedState where
  | Connected
  | TimerRecovery
deriving DecidableEq, Repr

/-- Connected::rr_connected. -/
def Connected.rr_connected (d : Data) (poll : Bool) (nr : Nat) (cr : Bool) :
    Option (Data × List Action) :=
  let d := { d with peer_receiver_busy := false }
  let (d, act) := d.check_need_for_response cr poll
  match in_range d.va nr d.vs d.modulus with
  | none => none
  | some false =>
    let (d, a2) := d.nr_error_recovery
    some (d, act ++ a2 ++ [.state .awaitingConnection])
  | some true =>
    match d.check_iframe_acked nr with
    | none => none
    | some (d, a2) => some (d, act ++ a2)

/-- Connected::rr_timer_recovery. -/
def Connected.rr_timer_recovery (d : Data) (poll : Bool) (nr : Nat) (cr : Bool) :
    Option (Data × List Action) :=
  let d := { d with peer_receiver_busy := false }
  if !cr ∧ poll then
    let d := ({ d with t1 := ⟨false⟩ }).select_t1_value
    match in_range d.va nr d.vs d.modulus with
    | none => none
    | some false =>
      let (d, a) := d.nr_error_recovery
      some (d, a ++ [.state .awaitingConnection])
    | some true =>
      match d.update_ack nr with
      | none => none
      | some (d, act) =>
        if d.vs = d.va then
          let d := { d with t3 := ⟨true⟩, rc := 0 }
          some (d, act ++ [.state .connected])
        else
          let (d, retr) := d.invoke_retransmission nr
          let d := { d with t3 := ⟨false⟩, t1 := ⟨true⟩,
                            acknowledge_pending := true }
          some (d, act ++ retr)
  else
    let (d, act) :=
      if cr ∧ poll then
        let (d, a) := d.enquiry_response true
        (d, [a])
      else (d, [])
    match in_range d.va nr d.vs d.modulus with
    | none => none
    | some true =>
      match d.update_ack nr with
      | none => none
      | some (d, a2) => some (d, act ++ a2)
    | some false =>
      let (d, a2) := d.nr_error_recovery
      some (d, act ++ a2 ++ [.state .awaitingConnection])

/-- Connected::sabm_or_sabme (reset of an established connection). -/
def Connected.sabm_or_sabme (cs : ConnectedState) (d : Data) (poll : Bool) :
    Data × List Action :=
  let d := d.clear_exception_conditions
  let d := { d with iframe_queue := if d.vs ≠ d.va then [] else d.iframe_queue }
  let d := { d with t1 := ⟨false⟩, t3 := ⟨true⟩, va := 0, vs := 0, vr := 0 }
  let d := { d with rc := match cs with
    | .Connected => 0
    | .TimerRecovery => d.rc }
  (d, [.dlError .F, .sendUa poll, .state .connected])

/-- Connected::iframe. -/
def Connected.iframe (d : Data) (i : Iframe) (cr : Bool) :
    Option (Data × List Action) :=
  if !cr then some (d, [.dlError .S])
  else if i.payload.length > d.n1 then
    let d := { d with layer3_initiated := false }
    let (d, a) := d.establish_data_link
    some (d, [a, .dlError .O, .state .awaitingConnection])
  else
    match in_range d.va i.nr d.vs d.modulus with
    | none => none
    | some false =>
      let (d, a) := d.nr_error_recovery
      some (d, a ++ [.state .awaitingConnection])
    | some true =>
      match d.check_iframe_acked i.nr with
      | none => none
      | some (d, actions) =>
        if d.own_receiver_busy then
          if i.poll then
            some ({ d with acknowledge_pending := false },
              actions ++ [.sendRnr true d.vr false])
          else some (d, actions)
        else if i.ns = d.vr then
          let d := { d with vr := (d.vr + 1) % d.modulus,
                            reject_exception := false }
          let d := { d with sreject_exception :=
              if d.sreject_exception > 0 then d.sreject_exception - 1
              else d.sreject_exception }
          let actions := actions ++ [.deliver i.payload]
          if i.poll then
            some ({ d with acknowledge_pending := false },
              actions ++ [.sendRr true d.vr false])
          else if !d.acknowledge_pending then
            some ({ d with acknowledge_pending := true }, actions)
          else some (d, actions)
        else if d.reject_exception then
          if i.poll then
            some ({ d with acknowledge_pending := false },
              actions ++ [.sendRr true d.vr false])
          else some (d, actions)
        else if !d.srej_enabled then
          some ({ d with reject_exception := true, acknowledge_pending := false },
            actions ++ [.sendRej i.poll d.vr])
        else if d.sreject_exception > 0 then
          some ({ d with sreject_exception := d.sreject_exception + 1,
                         acknowledge_pending := false }, actions)
        else if i.ns ≠ (d.vr + 1) % d.modulus then
          some ({ d with acknowledge_pending := false },
            actions ++ [.sendRej i.poll d.vr])
        else
          some ({ d with sreject_exception := d.sreject_exception + 1,
                         acknowledge_pending := false }, actions)

/-- Connected (and TimerRecovery) impl of the State trait. -/
def Connected.handle (cs : ConnectedState) (d : Data) (e : Event) :
    Option (Data × List Action) :=
  match e with
  | .disconnect =>
    let d := d.clear_iframe_queue
    some ({ d with rc := 0, t1 := ⟨true⟩, t3 := ⟨false⟩ },
      [.sendDisc true, .state .awaitingRelease])
  | .data payload =>
    let d := { d with obuf := d.obuf ++ payload }
    if d.obuf.length > MAX_OBUF_SIZE then none else d.flush
  | .sabm poll _ => some (Connected.sabm_or_sabme cs d.set_version_2 poll)
  | .sabme poll _ => some (Connected.sabm_or_sabme cs d.set_version_2_2 poll)
  | .dm _ =>
    let d := d.clear_iframe_queue
    some ({ d with t1 := ⟨false⟩, t3 := ⟨false⟩ },
      [.dlError .E, .state .disconnected])
  | .disc poll =>
    let d := d.clear_iframe_queue
    some ({ d with t1 := ⟨false⟩, t3 := ⟨false⟩ },
      [.sendUa poll, .eof, .state .disconnected])
  | .iframe i cr => Connected.iframe d i cr
  | .t1 =>
    let d := { d with t1 := ⟨false⟩ }
    let d := { d with rc := match cs with
      | .Connected => 1
      | .TimerRecovery => d.rc + 1 }
    if d.rc ≠ d.n2 then
      let (d, a) := d.transmit_enquiry
      some (d, [a, .state .timerRecovery])
    else
      let d := d.clear_iframe_queue
      some (d,
        [.dlError (if d.vs ≠ d.va then .I
                   else if d.peer_receiver_busy then .U else .T),
         .sendDm false, .state .disconnected])
  | .t3 =>
    let d := { d with t3 := ⟨false⟩, rc := 1 }
    let (d, a) := d.transmit_enquiry
    some (d, [.state .timerRecovery, a])
  | .ua _ =>
    let d := { d with layer3_initiated := false }
    let (d, a) := d.establish_data_link
    some (d, [.dlError .C, a, .state .awaitingConnection])
  | .frmr _ =>
    let d := { d with layer3_initiated := false }
    let (d, a) := d.establish_data_link
    some (d, [.dlError .K, a, .state .awaitingConnection])
  | .ui push payload cr =>
    let act := d.ui_check cr payload.length
    if push then
      let (d, a) := d.enquiry_response true
      some (d, act ++ [a])
    else some (d, act)
  | .rr poll nr cr =>
    match cs with
    | .Connected => Connected.rr_connected d poll nr cr
    | .TimerRecovery => Connected.rr_timer_recovery d poll nr cr
  | .connect _ _ => some (d, [])
  | .rnr _ _ => some (d, [])
  | .rej _ _ => some (d, [])
  | .srej _ _ => some (d, [])
  | .xid _ _ => some (d, [])
  | .test _ _ _ => some (d, [])

/-- Event dispatch of fn handle: pick the state impl. -/
def handleAct (st : StateId) (d : Data) (e : Event) :
    Option (Data × List Action) :=
  match st with
  | .disconnected => some (Disconnected.handle d e)
  | .awaitingConnection => some (AwaitingConnection.handle d e)
  | .awaitingRelease => some (AwaitingRelease.handle d e)
  | .connected => Connected.handle .Connected d e
  | .timerRecovery => Connected.handle .TimerRecovery d e

/-- The Packet built by fn handle for each Send action: src is data.me, dst
is data.peer.unwrap (none = panic when peer is unset). -/
def mkSendPacket (d : Data) (cr crla : Bool) (pt : PacketType) : Option Packet :=
  d.peer.map fun peer =>
    { src := d.me, dst := peer, command_response := cr,
      command_response_la := crla, digipeater := [], rr_dist1 := false,
      rr_extseq := false, packet_type := pt }

/-- Conversion of one Action into Option ReturnEvent (state changes convert
to nothing), as in the match inside fn handle; the outer none is the
peer.unwrap panic. -/
def Action.toReturnEvent (d : Data) : Action → Option (Option ReturnEvent)
  | .state _ => some none
  | .dlError e => some (some (.dlError e))
  | .sendSabm pf => (mkSendPacket d true false (.Sabm pf)).map (some <| .packet ·)
  | .sendDisc pf => (mkSendPacket d true false (.Disc pf)).map (some <| .packet ·)
  | .sendUa pf => (mkSendPacket d false true (.Ua pf)).map (some <| .packet ·)
  | .sendDm pf => (mkSendPacket d false true (.Dm pf)).map (some <| .packet ·)
  | .sendRej pf nr => (mkSendPacket d false true (.Rej pf nr)).map (some <| .packet ·)
  | .sendRr pf nr command =>
    (mkSendPacket d command (!command) (.Rr pf nr)).map (some <| .packet ·)
  | .sendRnr pf nr command =>
    (mkSendPacket d command (!command) (.Rnr pf nr)).map (some <| .packet ·)
  | .sendIframe i => (mkSendPacket d true false (.Iframe i)).map (some <| .packet ·)
  | .deliver p => some (some (.data (.SomeR p)))
  | .eof => some (some (.data .EOF))

/-- Convert every action in order, dropping state changes. -/
def convertActs (d : Data) : List Action → Option (List ReturnEvent)
  | [] => some []
  | a :: rest =>
    match a.toReturnEvent d with
    | none => none
    | some o =>
      (convertActs d rest).map fun l => o.toList ++ l

/-- The first State action, if any: fn handle returns on the first one. -/
def firstState : List Action → Option StateId
  | [] => none
  | .state s :: _ => some s
  | _ :: rest => firstState rest

/-- state.rs fn handle: run the state impl, convert actions to return
events, report the first state change.  none models any panic or
divergence inside. -/
def handle (st : StateId) (d : Data) (e : Event) :
    Option (Option StateId × Data × List ReturnEvent) :=
  match handleAct st d e with
  | none => none
  | some (d', acts) =>
    (convertActs d' acts).map fun revs => (firstState acts, d', revs)

/-- Drive fn handle over a list of events, accumulating return events, as
the Client engine does. -/
def run (st : StateId) (d : Data) : List Event → Option (StateId × Data × List ReturnEvent)
  | [] => some (st, d, [])
  | e :: rest =>
    match handle st d e with
    | none => none
    | some (stOpt, d', revs) =>
      match run (stOpt.getD st) d' rest with
      | none => none
      | some (stF, dF, revsF) => some (stF, dF, revs ++ revsF)

/-! Concrete values used by scenario claims, counterexamples and
witnesses. -/

/-- The callsign M0THC-1 (as Addr::new builds it: bits clear). -/
def m0thc1 : Addr := ⟨['M', '0', 'T', 'H', 'C', '-', '1'], false, false, false, false⟩

/-- The callsign M0THC-2 (as Addr::new builds it: bits clear). -/
def m0thc2 : Addr := ⟨['M', '0', 'T', 'H', 'C', '-', '2'], false, false, false, false⟩

/-- Serialized M0THC-2 address bytes with the command (high) bit set, as
in the serialize_sabm test of lib.rs. -/
def dstBytesC : List Nat := [154, 96, 168, 144, 134, 64, 228]

/-- Serialized M0THC-1 address bytes with the last-address bit set. -/
def srcBytesR : List Nat := [154, 96, 168, 144, 134, 64, 99]

/-- A connection with two unacked I frames (V(A) = 1, V(S) = 3), used as
the concrete instance for the update_ack claim. -/
def c8data : Data :=
  { (Data.new m0thc1) with
      vs := 3, va := 1,
      iframe_resend_queue := [⟨0, 1, false, 0xF0, [10]⟩, ⟨0, 2, false, 0xF0, [20]⟩] }

/-- The window facts that hold in the Connected/TimerRecovery states:
sequence variables in range, and the cyclic distance V(S) - V(A) at most K
and at most the resend-queue length.  (Plain equality of the distance with
the queue length, as the spec claims, fails: see the C1 counterexample.) -/
def ConnInv (d : Data) : Prop :=
  d.va < d.modulus ∧ d.vs < d.modulus ∧
  cdist d.va d.vs d.modulus ≤ d.k ∧
  cdist d.va d.vs d.modulus ≤ d.iframe_resend_queue.length

/-- Reachability invariant for the whole machine: the modulus is always 8
or 128, and in Connected/TimerRecovery the window facts hold. -/
def C1Inv (st : StateId) (d : Data) : Prop :=
  (d.modulus = 8 ∨ d.modulus = 128) ∧
  ((st = .connected ∨ st = .timerRecovery) → ConnInv d)

/-- Outcome facts shared by the queue-manipulating subroutines (flush,
update_ack, check_iframe_acked): modulus and K are unchanged, the window
facts hold again, and no state-change action is emitted. -/
def StepOut (d d' : Data) (acts : List Action) : Prop :=
  d'.modulus = d.modulus ∧ d'.k = d.k ∧ ConnInv d' ∧ firstState acts = none

/-- M0THC-2 as parsed from dstBytesC (command bit set). -/
def m2cmd : Addr := ⟨['M', '0', 'T', 'H', 'C', '-', '2'], false, true, false, false⟩

/-- M0THC-1 as parsed from srcBytesR (last-address bit set). -/
def m1last : Addr := ⟨['M', '0', 'T', 'H', 'C', '-', '1'], false, false, true, false⟩

/-- The mod-8 REJ packet with N(R)=1 that the C2 counterexample parses. -/
def c2rej : Packet :=
  { src := m1last, dst := m2cmd, digipeater := [], rr_extseq := false,
    command_response := true, command_response_la := false, rr_dist1 := false,
    packet_type := .Rej false 1 }

/-- The SABM command packet of the repository serialize test vector. -/
def c2sabm : Packet :=
  { src := m1last, dst := m2cmd, digipeater := [], rr_extseq := false,
    command_response := true, command_response_la := false, rr_dist1 := false,
    packet_type := .Sabm true }

/-- The run used as a concrete instance for the amended C1 claim. -/
def c1wRun : Option (StateId × Data × List ReturnEvent) :=
  run .disconnected (Data.new m0thc1) [.connect m0thc2 false, .ua true]

def c1wSt : StateId :=
  match c1wRun with
  | some (st, _, _) => st
  | none => .disconnected

def c1wD : Data :=
  match c1wRun with
  | some (_, d, _) => d
  | none => Data.new m0thc1

def c1wRevs : List ReturnEvent :=
  match c1wRun with
  | some (_, _, r) => r
  | none => []

/-! Theorems.  Helper lemmas first, then one theorem per claim (with
witnesses / counterexamples as needed). -/

theorem escapeBody_no_fend (b : List Nat) : ∀ x ∈ escapeBody b, x ≠ KISS_FEND := by
  induction b with
  | nil => intro x hx; cases hx
  | cons a rest ih =>
    intro x hx
    simp only [escapeBody, List.mem_append] at hx
    rcases hx with hx | hx
    · by_cases h1 : a = KISS_FEND
      · rw [if_pos h1] at hx
        simp only [List.mem_cons, List.not_mem_nil, or_false] at hx
        rcases hx with rfl | rfl <;> decide
      · rw [if_neg h1] at hx
        by_cases h2 : a = KISS_FESC
        · rw [if_pos h2] at hx
          simp only [List.mem_cons, List.not_mem_nil, or_false] at hx
          rcases hx with rfl | rfl <;> decide
        · rw [if_neg h2] at hx
          simp only [List.mem_singleton] at hx
          subst hx; exact h1
    · exact ih x hx

theorem unescape_go_escapeBody (b : List Nat) :
    unescape_go (escapeBody b) false = some b := by
  induction b with
  | nil => rfl
  | cons a rest ih =>
    by_cases h1 : a = KISS_FEND
    · simp [escapeBody, h1, unescape_go, KISS_FESC, KISS_TFESC, KISS_TFEND, ih]
    · by_cases h2 : a = KISS_FESC
      · simp [escapeBody, h1, h2, unescape_go, KISS_FESC, KISS_TFESC, ih]
      · simp [escapeBody, unescape_go, h1, h2, ih]

theorem find_frame_go_append (l : List Nat) (hno : ∀ x ∈ l, x ≠ KISS_FEND) :
    ∀ i s, find_frame_go (l ++ [KISS_FEND]) i (some s) = some (s, i + l.length) := by
  induction l with
  | nil => intro i s; simp [find_frame_go]
  | cons a rest ih =>
    intro i s
    have ha : a ≠ KISS_FEND := hno a (List.mem_cons_self a rest)
    simp only [List.cons_append, find_frame_go, if_neg ha, List.append_eq]
    rw [ih (fun x hx => hno x (List.mem_cons_of_mem a hx)) (i + 1) s]
    simp only [List.length_cons, Option.some.injEq, Prod.mk.injEq, true_and]
    omega

/-- C10: escape(b) is FEND, the type byte 0, the escaped body (containing
no FEND), and a closing FEND; find_frame finds exactly that frame; and
unescape of the bytes strictly between the type byte and the closing FEND
gives back b. -/
theorem claim_C10 (b : List Nat) :
    (escape b).take 2 = [KISS_FEND, 0] ∧
    (escape b).getLast? = some KISS_FEND ∧
    (∀ x ∈ ((escape b).drop 2).dropLast, x ≠ KISS_FEND) ∧
    find_frame (escape b) = some (0, (escape b).length - 1) ∧
    unescape (((escape b).drop 2).dropLast) = some b := by
  have hdrop : ((escape b).drop 2).dropLast = escapeBody b := by
    simp only [escape, List.drop_succ_cons, List.drop_zero]
    rw [List.dropLast_concat]
  refine ⟨rfl, ?_, ?_, ?_, ?_⟩
  · simp only [escape]
    rw [show KISS_FEND :: 0 :: (escapeBody b ++ [KISS_FEND]) =
      (KISS_FEND :: 0 :: escapeBody b) ++ [KISS_FEND] by simp,
      List.getLast?_concat]
  · rw [hdrop]; exact escapeBody_no_fend b
  · have h0 : (0 : Nat) ≠ KISS_FEND := by decide
    have hstep : find_frame (escape b) =
        find_frame_go (escapeBody b ++ [KISS_FEND]) 2 (some 0) := by
      simp [find_frame, escape, find_frame_go, h0]
    have hlen : (escape b).length = (escapeBody b).length + 3 := by
      simp [escape]
    rw [hstep, find_frame_go_append (escapeBody b) (escapeBody_no_fend b) 2 0,
      hlen]
    simp only [Option.some.injEq, Prod.mk.injEq, true_and]
    omega
  · rw [hdrop]; exact unescape_go_escapeBody b

/-- Cyclic distance written without %, for a, b below m. -/
theorem cdist_eq (a b m : Nat) (ha : a < m) (hb : b < m) :
    cdist a b m = if a ≤ b then b - a else b + m - a := by
  unfold cdist
  split
  · have h1 : b + m - a = (b - a) + m := by omega
    rw [h1, Nat.add_mod_right, Nat.mod_eq_of_lt (by omega)]
  · rw [Nat.mod_eq_of_lt (by omega)]

theorem cdist_self (a m : Nat) (ha : a < m) : cdist a a m = 0 := by
  rw [cdist_eq a a m ha ha]; simp

theorem cdist_step (t vs m : Nat) (ht : t < m) (hvs : vs < m) (hne : t ≠ vs) :
    cdist t vs m = cdist ((t + 1) % m) vs m + 1 := by
  by_cases h : t + 1 = m
  · have h0 : (t + 1) % m = 0 := by rw [h, Nat.mod_self]
    rw [h0, cdist_eq t vs m ht hvs, cdist_eq 0 vs m (by omega) hvs,
      if_neg (by omega : ¬ t ≤ vs), if_pos (Nat.zero_le vs)]
    omega
  · have h1 : (t + 1) % m = t + 1 := Nat.mod_eq_of_lt (by omega)
    rw [h1, cdist_eq t vs m ht hvs, cdist_eq (t + 1) vs m (by omega) hvs]
    split <;> split <;> omega

theorem cdist_lt (a b m : Nat) (hm : 0 < m) : cdist a b m < m :=
  Nat.mod_lt _ hm

theorem in_range_go_isSome (nr vs m : Nat) (hvs : vs < m) :
    ∀ fuel t, t < m → cdist t vs m < fuel → (in_range_go nr vs m fuel t).isSome := by
  intro fuel
  induction fuel with
  | zero => intro t _ h; omega
  | succ f ih =>
    intro t ht hf
    simp only [in_range_go]
    split
    · rfl
    · split
      · rfl
      · next h1 h2 =>
        have hm : 0 < m := by omega
        refine ih ((t + 1) % m) (Nat.mod_lt _ hm) ?_
        have := cdist_step t vs m ht hvs h2
        omega

theorem in_range_go_top (vs m : Nat) (hvs : vs < m) :
    ∀ fuel t, t < m → cdist t vs m < fuel →
      in_range_go vs vs m fuel t = some true := by
  intro fuel
  induction fuel with
  | zero => intro t _ h; omega
  | succ f ih =>
    intro t ht hf
    simp only [in_range_go]
    split
    · rfl
    · next h1 =>
      have hm : 0 < m := by omega
      refine ih ((t + 1) % m) (Nat.mod_lt _ hm) ?_
      have := cdist_step t vs m ht hvs h1
      omega

theorem in_range_go_true_facts (nr vs m : Nat) (hvs : vs < m) :
    ∀ fuel t, t < m → in_range_go nr vs m fuel t = some true →
      nr < m ∧ cdist t nr m ≤ cdist t vs m := by
  intro fuel
  induction fuel with
  | zero => intro t _ h; simp [in_range_go] at h
  | succ f ih =>
    intro t ht h
    simp only [in_range_go] at h
    by_cases h1 : t = nr
    · subst h1
      exact ⟨ht, by rw [cdist_self t m ht]; omega⟩
    · rw [if_neg h1] at h
      by_cases h2 : t = vs
      · rw [if_pos h2] at h; cases h
      · rw [if_neg h2] at h
        have hm : 0 < m := by omega
        obtain ⟨hnr, hle⟩ := ih ((t + 1) % m) (Nat.mod_lt _ hm) h
        refine ⟨hnr, ?_⟩
        have hs1 := cdist_step t vs m ht hvs h2
        have hs2 := cdist_step t nr m ht hnr h1
        omega

/-- C9: for va, nr, vs below the modulus (modulus at least 1) the in_range
loop terminates: the fueled embedding returns a result rather than running
out of fuel. -/
theorem claim_C9 (va nr vs m : Nat) (hva : va < m) (_hnr : nr < m)
    (hvs : vs < m) (_hm : 1 ≤ m) : (in_range va nr vs m).isSome := by
  unfold in_range
  refine in_range_go_isSome nr vs m hvs (m + 1) va hva ?_
  have := cdist_lt va vs m (by omega)
  omega

theorem claim_C9_witness :
    (2 < 8 ∧ 5 < 8 ∧ 6 < 8 ∧ 1 ≤ 8) ∧ (in_range 2 5 6 8).isSome :=
  ⟨by decide, claim_C9 2 5 6 8 (by decide) (by decide) (by decide) (by decide)⟩

/-- C3 counterexample: at va = 0, vs = 1, modulus = 8 (va different from
vs) the code returns some true for in_range(va, vs, vs, modulus), not
false as the claim states: the nr check precedes the vs check. -/
theorem claim_C3_counterexample :
    (0 : Nat) ≠ 1 ∧ in_range 0 1 1 8 ≠ some false ∧ in_range 0 1 1 8 = some true := by
  decide

/-- C3 (amended): in_range(va, va, vs, m) is true, and in_range(va, vs, vs,
m) is also true (not false): the top of the window counts as in range,
because the loop tests t = nr before t = vs. -/
theorem claim_C3_amended (va vs m : Nat) (hm : m = 8 ∨ m = 128)
    (hva : va < m) (hvs : vs < m) :
    in_range va va vs m = some true ∧ in_range va vs vs m = some true := by
  have hm0 : 0 < m := by rcases hm with h | h <;> omega
  constructor
  · unfold in_range in_range_go
    simp
  · unfold in_range
    refine in_range_go_top vs m hvs (m + 1) va hva ?_
    have := cdist_lt va vs m hm0
    omega

theorem claim_C3_amended_witness :
    ((8 : Nat) = 8 ∨ (8 : Nat) = 128) ∧ 2 < 8 ∧ 5 < 8 ∧
      (in_range 2 2 5 8 = some true ∧ in_range 2 5 5 8 = some true) :=
  ⟨Or.inl rfl, by decide, by decide,
    claim_C3_amended 2 5 8 (Or.inl rfl) (by decide) (by decide)⟩

/-- C4: from Disconnected, a Connect (mod-8, me M0THC-1, peer M0THC-2)
followed by ten T1 expiries emits exactly 10 SABM packets with poll set,
src M0THC-1, dst M0THC-2 (one at Connect, nine retries), ends in
Disconnected, and reports the timeout error G on the final T1 (the one
arriving with RC = N2 = 10). -/
theorem claim_C4 :
    (run .disconnected (Data.new m0thc1)
        (.connect m0thc2 false :: List.replicate 10 .t1)).map
      (fun r => (r.1,
        r.2.2.countP (fun ev =>
          match ev with
          | .packet p => p.packet_type = .Sabm true ∧ p.src = m0thc1 ∧ p.dst = m0thc2
          | _ => false),
        decide ((ReturnEvent.dlError .G) ∈ r.2.2))) =
      some (.disconnected, 10, true) := by
  decide

/-- C5 counterexample: a connection entered via the local Connect event
(mod-8) keeps K = 7 from Data::new; Disconnected::connect never calls
set_version_2, so K is not 4 even though the modulus is 8. -/
theorem claim_C5_counterexample :
    (handle .disconnected (Data.new m0thc1) (.connect m0thc2 false)).map
      (fun r => (r.2.1.modulus, r.2.1.k)) = some (8, 7) ∧ (7 : Nat) ≠ 4 := by
  decide

/-- C5 (amended): connections accepted via an incoming SABM get modulus 8
with K = 4, and via an incoming SABME modulus 128 with K = 32
(set_version_2 / set_version_2_2 run before the able_to_establish check);
connections entered via the local Connect event retain the previous K
(7 on a fresh Data::new), so the claim holds only for the inbound path. -/
theorem claim_C5_amended (d : Data) (poll : Bool) (src : Addr) :
    ((Disconnected.handle d (.sabm poll src)).1.modulus = 8 ∧
     (Disconnected.handle d (.sabm poll src)).1.k = 4) ∧
    ((Disconnected.handle d (.sabme poll src)).1.modulus = 128 ∧
     (Disconnected.handle d (.sabme poll src)).1.k = 32) := by
  simp only [Disconnected.handle, Disconnected.sabm_and_sabme,
    Data.set_version_2, Data.set_version_2_2, Data.clear_exception_conditions]
  constructor <;> split <;> simp

theorem cdist_eq_zero (a b m : Nat) (ha : a < m) (hb : b < m)
    (h : cdist a b m = 0) : a = b := by
  rw [cdist_eq a b m ha hb] at h
  split at h <;> omega

/-- The while loop of update_ack pops exactly cdist(va, nr) frames and
sets va to nr, provided the queue is long enough and nr is a residue. -/
theorem update_ack_go_eq (nr : Nat) :
    ∀ fuel (d : Data), d.va < d.modulus → nr < d.modulus →
      cdist d.va nr d.modulus ≤ d.iframe_resend_queue.length →
      cdist d.va nr d.modulus < fuel →
      Data.update_ack_go fuel d nr =
        some { d with va := nr,
                      iframe_resend_queue :=
                        d.iframe_resend_queue.drop (cdist d.va nr d.modulus) } := by
  intro fuel
  induction fuel with
  | zero => intro d _ _ _ h; omega
  | succ f ih =>
    intro d hva hnr hq hf
    by_cases h : d.va = nr
    · rw [Data.update_ack_go, if_pos h]
      subst h
      rw [cdist_self d.va d.modulus hva, List.drop_zero]
    · have hm : 0 < d.modulus := by omega
      have hstep := cdist_step d.va nr d.modulus hva hnr h
      have hpos : 0 < cdist d.va nr d.modulus := by
        by_contra hc
        exact h (cdist_eq_zero d.va nr d.modulus hva hnr (by omega))
      obtain ⟨q0, qs, hqm⟩ : ∃ q0 qs, d.iframe_resend_queue = q0 :: qs := by
        match hh : d.iframe_resend_queue with
        | [] => rw [hh] at hq; simp at hq; omega
        | a :: l => exact ⟨a, l, rfl⟩
      have hstep2 : Data.update_ack_go (f + 1) d nr =
          Data.update_ack_go f
            { d with iframe_resend_queue := qs,
                     va := (d.va + 1) % d.modulus } nr := by
        conv_lhs => rw [Data.update_ack_go]
        rw [if_neg h, hqm]
      have hq2 : cdist d.va nr d.modulus ≤ qs.length + 1 := by
        rw [hqm] at hq; simpa using hq
      rw [hstep2,
        ih { d with iframe_resend_queue := qs, va := (d.va + 1) % d.modulus }
          (Nat.mod_lt _ hm) hnr (by simp only; omega) (by simp only; omega)]
      simp only [Option.some.injEq]
      have hdrop : d.iframe_resend_queue.drop (cdist d.va nr d.modulus) =
          qs.drop (cdist ((d.va + 1) % d.modulus) nr d.modulus) := by
        rw [hqm, hstep]
        rfl
      rw [hdrop]

/-- C8: under the stated preconditions (modulus 8 or 128, V(A), V(S), nr
below the modulus, resend-queue length = (V(S) - V(A)) mod modulus, nr in
the window per in_range), update_ack(nr) never hits its empty-queue
assertion: its loop pops exactly (nr - V(A)) mod modulus frames from the
front, leaves V(A) = nr, and update_ack then just flushes that state. -/
theorem claim_C8 (d : Data) (nr : Nat)
    (_hm : d.modulus = 8 ∨ d.modulus = 128)
    (hva : d.va < d.modulus) (hvs : d.vs < d.modulus)
    (hnr : nr < d.modulus)
    (hq : d.iframe_resend_queue.length = cdist d.va d.vs d.modulus)
    (hr : in_range d.va nr d.vs d.modulus = some true) :
    d.update_ack_loop nr =
      some { d with va := nr,
                    iframe_resend_queue :=
                      d.iframe_resend_queue.drop ((nr + d.modulus - d.va) % d.modulus) } ∧
    d.update_ack nr =
      Data.flush { d with va := nr,
                          iframe_resend_queue :=
                            d.iframe_resend_queue.drop ((nr + d.modulus - d.va) % d.modulus) } := by
  have hm : 0 < d.modulus := by omega
  obtain ⟨_, hle⟩ := in_range_go_true_facts nr d.vs d.modulus hvs (d.modulus + 1) d.va hva hr
  have h1 : d.update_ack_loop nr =
      some { d with va := nr,
                    iframe_resend_queue :=
                      d.iframe_resend_queue.drop (cdist d.va nr d.modulus) } := by
    refine update_ack_go_eq nr (d.modulus + 1) d hva hnr (by omega) ?_
    have := cdist_lt d.va nr d.modulus hm
    omega
  have hc : cdist d.va nr d.modulus = (nr + d.modulus - d.va) % d.modulus := rfl
  rw [hc] at h1
  refine ⟨h1, ?_⟩
  rw [Data.update_ack, h1, Option.some_bind]

theorem claim_C8_witness :
    ((c8data.modulus = 8 ∨ c8data.modulus = 128) ∧ c8data.va < c8data.modulus ∧
      c8data.vs < c8data.modulus ∧ 3 < c8data.modulus ∧
      c8data.iframe_resend_queue.length = cdist c8data.va c8data.vs c8data.modulus ∧
      in_range c8data.va 3 c8data.vs c8data.modulus = some true) ∧
    c8data.update_ack_loop 3 =
      some { c8data with va := 3,
                         iframe_resend_queue :=
                           c8data.iframe_resend_queue.drop
                             ((3 + c8data.modulus - c8data.va) % c8data.modulus) } :=
  ⟨⟨Or.inl rfl, by decide, by decide, by decide, by decide, by decide⟩,
    (claim_C8 c8data 3 (Or.inl rfl) (by decide) (by decide) (by decide)
      (by decide) (by decide)).1⟩

/-- C1 counterexample: reach Connected (Connect then UA), send one byte of
data (one unacked I frame, resend queue length 1), then receive a SABM.
Connected::sabm_or_sabme zeroes V(S) and V(A) but does not clear
iframe_resend_queue, so the invariant length = (V(S) - V(A)) mod modulus
fails: length 1 versus distance 0. -/
theorem claim_C1_counterexample :
    (run .disconnected (Data.new m0thc1)
        [.connect m0thc2 false, .ua true, .data [1], .sabm true m0thc2]).map
      (fun r => (r.1, r.2.1.iframe_resend_queue.length,
        (r.2.1.vs + r.2.1.modulus - r.2.1.va) % r.2.1.modulus)) =
      some (.connected, 1, 0) ∧ (1 : Nat) ≠ 0 := by
  decide

theorem mod_shift (x va m : Nat) (hva : va ≤ m) :
    (x % m + m - va) % m = (x + m - va) % m := by
  by_cases hm : m = 0
  · subst hm; simp
  · conv_rhs => rw [← Nat.div_add_mod x m]
    rw [show m * (x / m) + x % m + m - va = (x % m + m - va) + m * (x / m) by omega,
      Nat.add_mul_mod_self_left]

theorem vs_eq_add_cdist (va vs m : Nat) (hva : va < m) (hvs : vs < m) :
    (va + cdist va vs m) % m = vs := by
  rw [cdist_eq va vs m hva hvs]
  split
  · rw [show va + (vs - va) = vs by omega, Nat.mod_eq_of_lt hvs]
  · rw [show va + (vs + m - va) = vs + m by omega, Nat.add_mod_right,
      Nat.mod_eq_of_lt hvs]

theorem cdist_vs_step (va vs m : Nat) (hva : va ≤ m) :
    cdist va ((vs + 1) % m) m = (cdist va vs m + 1) % m := by
  unfold cdist
  rw [mod_shift (vs + 1) va m hva, Nat.mod_add_mod,
    show vs + m - va + 1 = vs + 1 + m - va by omega]

theorem cdist_sub (va nr vs m : Nat) (hva : va < m) (hnr : nr < m) (hvs : vs < m)
    (h : cdist va nr m ≤ cdist va vs m) :
    cdist nr vs m = cdist va vs m - cdist va nr m := by
  rw [cdist_eq va nr m hva hnr, cdist_eq va vs m hva hvs] at h
  rw [cdist_eq nr vs m hnr hvs, cdist_eq va vs m hva hvs, cdist_eq va nr m hva hnr]
  split_ifs at h ⊢ <;> omega

theorem window_guard (va vs k m : Nat) (hva : va < m) (hvs : vs < m)
    (hne : vs ≠ (va + k) % m) : cdist va vs m ≠ k % m := by
  intro hc
  apply hne
  have h1 := vs_eq_add_cdist va vs m hva hvs
  rw [hc] at h1
  rw [← h1]
  conv_rhs => rw [Nat.add_mod]
  conv_lhs => rw [Nat.add_mod, Nat.mod_mod_of_dvd _ dvd_rfl]

/-- The window distance after one more queued I frame stays within K and
within the grown queue. -/
theorem window_step (va vs k m q : Nat) (hm : 0 < m) (hva : va < m) (hvs : vs < m)
    (hck : cdist va vs m ≤ k) (hcq : cdist va vs m ≤ q)
    (hne : vs ≠ (va + k) % m) :
    cdist va ((vs + 1) % m) m ≤ k ∧ cdist va ((vs + 1) % m) m ≤ q + 1 := by
  have hg := window_guard va vs k m hva hvs hne
  have hstep := cdist_vs_step va vs m (by omega)
  by_cases hkm : k < m
  · have hkmod : k % m = k := Nat.mod_eq_of_lt hkm
    rw [hkmod] at hg
    have hlt : cdist va vs m < k := by omega
    have h2 : cdist va vs m + 1 < m := by omega
    rw [hstep, Nat.mod_eq_of_lt h2]
    omega
  · have hc := cdist_lt va vs m hm
    have hc2 := cdist_lt va ((vs + 1) % m) m hm
    constructor
    · omega
    · rw [hstep]
      by_cases h2 : cdist va vs m + 1 < m
      · rw [Nat.mod_eq_of_lt h2]; omega
      · have : cdist va vs m + 1 = m := by omega
        rw [this, Nat.mod_self]; omega

/-- The flush loop preserves the window facts: it leaves modulus, va and k
untouched, keeps vs in range and the distance within K and the queue
length, and emits only SendIframe actions (no state change). -/
theorem flush_go_inv (m : Nat) (hm : 0 < m) :
    ∀ fuel (d : Data), d.modulus = m → d.va < m → d.vs < m →
      cdist d.va d.vs m ≤ d.k →
      cdist d.va d.vs m ≤ d.iframe_resend_queue.length →
      ∀ d' acts, Data.flush_go fuel d = some (d', acts) →
        d'.modulus = m ∧ d'.va = d.va ∧ d'.k = d.k ∧ d'.vs < m ∧
        cdist d'.va d'.vs m ≤ d'.k ∧
        cdist d'.va d'.vs m ≤ d'.iframe_resend_queue.length ∧
        firstState acts = none := by
  intro fuel
  induction fuel with
  | zero =>
    intro d _ _ _ _ _ d' acts h
    exact absurd h (by simp [Data.flush_go])
  | succ f ih =>
    intro d hmod hva hvs hck hcq d' acts h
    subst hmod
    rw [Data.flush_go] at h
    by_cases h1 : d.obuf = []
    · rw [if_pos h1] at h
      cases h
      exact ⟨rfl, rfl, rfl, hvs, hck, hcq, rfl⟩
    · rw [if_neg h1] at h
      by_cases h2 : d.vs = (d.va + d.k) % d.modulus
      · rw [if_pos h2] at h
        cases h
        exact ⟨rfl, rfl, rfl, hvs, hck, hcq, rfl⟩
      · rw [if_neg h2] at h
        simp only at h
        obtain ⟨hwk, hwq⟩ := window_step d.va d.vs d.k d.modulus
          d.iframe_resend_queue.length hm hva hvs hck hcq h2
        split at h
        · cases h
        · next dmid actsmid hrec =>
          have hih := fun h1 h2 h3 h4 h5 =>
            ih _ h1 h2 h3 h4 h5 dmid actsmid hrec
          have := hih rfl hva (Nat.mod_lt _ hm) hwk (by simpa using hwq)
          cases h
          refine ⟨this.1, this.2.1, this.2.2.1, this.2.2.2.1,
            this.2.2.2.2.1, this.2.2.2.2.2.1, ?_⟩
          simpa [firstState] using this.2.2.2.2.2.2

theorem firstState_append_none (l1 l2 : List Action)
    (h1 : firstState l1 = none) (h2 : firstState l2 = none) :
    firstState (l1 ++ l2) = none := by
  induction l1 with
  | nil => simpa using h2
  | cons a rest ih => cases a <;> simp_all [firstState, List.cons_append]

theorem firstState_map_sendIframe (l : List Iframe) :
    firstState (l.map Action.sendIframe) = none := by
  induction l with
  | nil => rfl
  | cons a rest ih => simpa [firstState] using ih

/-- Data::flush preserves the window facts and never changes state. -/
theorem flush_inv (d : Data) (hm : 0 < d.modulus) (hc : ConnInv d)
    (d' : Data) (acts : List Action) (h : d.flush = some (d', acts)) :
    StepOut d d' acts := by
  obtain ⟨hva, hvs, hck, hcq⟩ := hc
  unfold Data.flush at h
  by_cases hb : d.peer_receiver_busy
  · rw [if_pos hb] at h
    cases h
    exact ⟨rfl, rfl, ⟨hva, hvs, hck, hcq⟩, rfl⟩
  · rw [if_neg hb] at h
    obtain ⟨e1, e2, e3, e4, e5, e6, e7⟩ :=
      flush_go_inv d.modulus hm _ d rfl hva hvs hck hcq d' acts h
    refine ⟨e1, e3, ⟨?_, ?_, ?_, ?_⟩, e7⟩
    · rw [e1, e2]; exact hva
    · rw [e1]; exact e4
    · rw [e1]; exact e5
    · rw [e1]; exact e6

/-- Data::update_ack under a verified in_range ack preserves the window
facts and never changes state. -/
theorem update_ack_inv (d : Data) (nr : Nat) (hm : 0 < d.modulus)
    (hc : ConnInv d) (hr : in_range d.va nr d.vs d.modulus = some true)
    (d' : Data) (acts : List Action) (h : d.update_ack nr = some (d', acts)) :
    StepOut d d' acts := by
  obtain ⟨hva, hvs, hck, hcq⟩ := hc
  obtain ⟨hnr, hle⟩ :=
    in_range_go_true_facts nr d.vs d.modulus hvs (d.modulus + 1) d.va hva hr
  have hloop := update_ack_go_eq nr (d.modulus + 1) d hva hnr
    (le_trans hle hcq) (by have := cdist_lt d.va nr d.modulus hm; omega)
  unfold Data.update_ack Data.update_ack_loop at h
  rw [hloop, Option.some_bind] at h
  have hsub := cdist_sub d.va nr d.vs d.modulus hva hnr hvs hle
  have hmid : ConnInv
      { d with va := nr,
               iframe_resend_queue :=
                 d.iframe_resend_queue.drop (cdist d.va nr d.modulus) } := by
    refine ⟨hnr, hvs, ?_, ?_⟩
    · show cdist nr d.vs d.modulus ≤ d.k
      rw [hsub]; omega
    · show cdist nr d.vs d.modulus ≤
        (d.iframe_resend_queue.drop (cdist d.va nr d.modulus)).length
      rw [hsub, List.length_drop]; omega
  exact flush_inv
    { d with va := nr,
             iframe_resend_queue :=
               d.iframe_resend_queue.drop (cdist d.va nr d.modulus) }
    hm hmid d' acts h

/-- Data::check_iframe_acked under a verified in_range ack preserves the
window facts and never changes state. -/
theorem check_iframe_acked_inv (d : Data) (nr : Nat) (hm : 0 < d.modulus)
    (hc : ConnInv d) (hr : in_range d.va nr d.vs d.modulus = some true)
    (d' : Data) (acts : List Action)
    (h : d.check_iframe_acked nr = some (d', acts)) :
    StepOut d d' acts := by
  unfold Data.check_iframe_acked at h
  by_cases hb : d.peer_receiver_busy
  · rw [if_pos hb] at h
    exact update_ack_inv
      { d with t3 := ⟨false⟩,
               t1 := if !d.t1.running then ⟨true⟩ else d.t1 }
      nr hm hc hr d' acts h
  · rw [if_neg hb] at h
    by_cases h2 : nr = d.vs
    · rw [if_pos h2] at h
      exact update_ack_inv { d with t1 := ⟨false⟩, t3 := ⟨true⟩ }
        nr hm hc hr d' acts h
    · rw [if_neg h2] at h
      by_cases h3 : nr ≠ d.va
      · rw [if_pos h3] at h
        exact update_ack_inv { d with t1 := ⟨true⟩ } nr hm hc hr d' acts h
      · rw [if_neg h3] at h
        cases h
        exact ⟨rfl, rfl, hc, rfl⟩

theorem cdist_zero (m : Nat) : cdist 0 0 m = 0 := by
  unfold cdist
  simp

theorem C1Inv_other {st : StateId} (d : Data)
    (hm : d.modulus = 8 ∨ d.modulus = 128)
    (h1 : st ≠ .connected) (h2 : st ≠ .timerRecovery) : C1Inv st d :=
  ⟨hm, fun hst => hst.elim (fun hh => absurd hh h1) (fun hh => absurd hh h2)⟩

theorem C1Inv_conn {st : StateId} (d : Data)
    (hm : d.modulus = 8 ∨ d.modulus = 128) (hc : ConnInv d) : C1Inv st d :=
  ⟨hm, fun _ => hc⟩

theorem C1Inv_reset {st : StateId} (d : Data)
    (hm : d.modulus = 8 ∨ d.modulus = 128)
    (hva : d.va = 0) (hvs : d.vs = 0) : C1Inv st d := by
  have hm0 : 0 < d.modulus := by rcases hm with h | h <;> omega
  refine ⟨hm, fun _ => ⟨?_, ?_, ?_, ?_⟩⟩
  · rw [hva]; exact hm0
  · rw [hvs]; exact hm0
  · rw [hva, hvs, cdist_zero]; exact Nat.zero_le _
  · rw [hva, hvs, cdist_zero]; exact Nat.zero_le _

/-- Disconnected::handle preserves the reachability invariant. -/
theorem disconnected_inv (d : Data) (e : Event) (d' : Data) (acts : List Action)
    (hm : d.modulus = 8 ∨ d.modulus = 128)
    (h : Disconnected.handle d e = (d', acts)) :
    C1Inv ((firstState acts).getD .disconnected) d' := by
  cases e with
  | connect addr ext =>
    simp only [Disconnected.handle, Data.establish_data_link,
      Data.clear_exception_conditions] at h
    injection h with h1 h2
    subst h1; subst h2
    refine C1Inv_other _ ?_ (by simp [firstState]) (by simp [firstState])
    cases ext <;> simp
  | sabm poll src =>
    simp only [Disconnected.handle, Disconnected.sabm_and_sabme,
      Data.set_version_2, Data.clear_exception_conditions] at h
    split at h
    · injection h with h1 h2
      subst h1; subst h2
      exact C1Inv_other _ (by simp) (by simp [firstState]) (by simp [firstState])
    · injection h with h1 h2
      subst h1; subst h2
      exact C1Inv_reset _ (by simp) rfl rfl
  | sabme poll src =>
    simp only [Disconnected.handle, Disconnected.sabm_and_sabme,
      Data.set_version_2_2, Data.clear_exception_conditions] at h
    split at h
    · injection h with h1 h2
      subst h1; subst h2
      exact C1Inv_other _ (by simp) (by simp [firstState]) (by simp [firstState])
    · injection h with h1 h2
      subst h1; subst h2
      exact C1Inv_reset _ (by simp) rfl rfl
  | ui push payload cr =>
    simp only [Disconnected.handle] at h
    injection h with h1 h2
    subst h1; subst h2
    refine C1Inv_other _ hm ?_ ?_ <;>
      (cases push <;> cases cr <;>
        simp [Data.ui_check, firstState] <;> split <;> simp [firstState])
  | disc poll =>
    simp only [Disconnected.handle] at h
    injection h with h1 h2
    subst h1; subst h2
    exact C1Inv_other _ hm (by simp [firstState]) (by simp [firstState])
  | ua poll =>
    simp only [Disconnected.handle] at h
    injection h with h1 h2
    subst h1; subst h2
    exact C1Inv_other _ hm (by simp [firstState]) (by simp [firstState])
  | dm poll =>
    simp only [Disconnected.handle] at h
    injection h with h1 h2
    subst h1; subst h2
    exact C1Inv_other _ hm (by simp [firstState]) (by simp [firstState])
  | t1 =>
    simp only [Disconnected.handle, defaultT1] at h
    injection h with h1 h2
    subst h1; subst h2
    exact C1Inv_other _ hm (by simp [firstState]) (by simp [firstState])
  | t3 =>
    simp only [Disconnected.handle, defaultT3] at h
    injection h with h1 h2
    subst h1; subst h2
    exact C1Inv_other _ hm (by simp [firstState]) (by simp [firstState])
  | disconnect =>
    simp only [Disconnected.handle] at h
    injection h with h1 h2
    subst h1; subst h2
    exact C1Inv_other _ hm (by simp [firstState]) (by simp [firstState])
  | data payload =>
    simp only [Disconnected.handle] at h
    injection h with h1 h2
    subst h1; subst h2
    exact C1Inv_other _ hm (by simp [firstState]) (by simp [firstState])
  | frmr poll =>
    simp only [Disconnected.handle] at h
    injection h with h1 h2
    subst h1; subst h2
    exact C1Inv_other _ hm (by simp [firstState]) (by simp [firstState])
  | test poll payload cr =>
    simp only [Disconnected.handle] at h
    injection h with h1 h2
    subst h1; subst h2
    exact C1Inv_other _ hm (by simp [firstState]) (by simp [firstState])
  | xid poll cr =>
    simp only [Disconnected.handle] at h
    injection h with h1 h2
    subst h1; subst h2
    exact C1Inv_other _ hm (by simp [firstState]) (by simp [firstState])
  | rr poll nr cr =>
    simp only [Disconnected.handle] at h
    injection h with h1 h2
    subst h1; subst h2
    exact C1Inv_other _ hm (by simp [firstState]) (by simp [firstState])
  | rnr poll nr =>
    simp only [Disconnected.handle] at h
    injection h with h1 h2
    subst h1; subst h2
    exact C1Inv_other _ hm (by simp [firstState]) (by simp [firstState])
  | rej poll nr =>
    simp only [Disconnected.handle] at h
    injection h with h1 h2
    subst h1; subst h2
    exact C1Inv_other _ hm (by simp [firstState]) (by simp [firstState])
  | srej poll nr =>
    simp only [Disconnected.handle] at h
    injection h with h1 h2
    subst h1; subst h2
    exact C1Inv_other _ hm (by simp [firstState]) (by simp [firstState])
  | iframe i cr =>
    simp only [Disconnected.handle] at h
    injection h with h1 h2
    subst h1; subst h2
    exact C1Inv_other _ hm (by simp [firstState]) (by simp [firstState])

/-- AwaitingConnection::handle preserves the reachability invariant. -/
theorem awaitingConnection_inv (d : Data) (e : Event) (d' : Data)
    (acts : List Action) (hm : d.modulus = 8 ∨ d.modulus = 128)
    (h : AwaitingConnection.handle d e = (d', acts)) :
    C1Inv ((firstState acts).getD .awaitingConnection) d' := by
  cases e
  case t1 =>
    simp only [AwaitingConnection.handle, Data.clear_iframe_queue,
      Data.select_t1_value] at h
    split at h <;>
      (injection h with h1 h2; subst h1; subst h2;
       exact C1Inv_other _ hm (by simp [firstState]) (by simp [firstState]))
  case ua poll =>
    simp only [AwaitingConnection.handle, Data.select_t1_value] at h
    split at h
    · injection h with h1 h2
      subst h1; subst h2
      exact C1Inv_other _ hm (by simp [firstState]) (by simp [firstState])
    · injection h with h1 h2
      subst h1; subst h2
      exact C1Inv_reset _ hm rfl rfl
  all_goals
    simp only [AwaitingConnection.handle, defaultT3] at h
  all_goals
    (injection h with h1 h2; subst h1; subst h2;
     exact C1Inv_other _ hm (by simp [firstState]) (by simp [firstState]))

/-- AwaitingRelease::handle preserves the reachability invariant. -/
theorem awaitingRelease_inv (d : Data) (e : Event) (d' : Data)
    (acts : List Action) (hm : d.modulus = 8 ∨ d.modulus = 128)
    (h : AwaitingRelease.handle d e = (d', acts)) :
    C1Inv ((firstState acts).getD .awaitingRelease) d' := by
  cases e
  case t1 =>
    simp only [AwaitingRelease.handle, Data.select_t1_value] at h
    split at h <;>
      (injection h with h1 h2; subst h1; subst h2;
       exact C1Inv_other _ hm (by simp [firstState]) (by simp [firstState]))
  case ua poll =>
    simp only [AwaitingRelease.handle] at h
    split at h <;>
      (injection h with h1 h2; subst h1; subst h2;
       exact C1Inv_other _ hm (by simp [firstState]) (by simp [firstState]))
  case dm poll =>
    simp only [AwaitingRelease.handle] at h
    split at h <;>
      (injection h with h1 h2; subst h1; subst h2;
       exact C1Inv_other _ hm (by simp [firstState]) (by simp [firstState]))
  all_goals
    simp only [AwaitingRelease.handle, defaultT3] at h
  all_goals
    (injection h with h1 h2; subst h1; subst h2;
     exact C1Inv_other _ hm (by simp [firstState]) (by simp [firstState]))

/-- Connected::handle (both Connected and TimerRecovery) preserves the
reachability invariant, for any current StateId (the stay-in-place cases
re-establish the window facts, which hold under any state). -/
theorem connected_inv (cs : ConnectedState) (st : StateId) (d : Data)
    (e : Event) (d' : Data) (acts : List Action)
    (hm : d.modulus = 8 ∨ d.modulus = 128) (hc : ConnInv d)
    (h : Connected.handle cs d e = some (d', acts)) :
    C1Inv ((firstState acts).getD st) d' := by
  have hm0 : 0 < d.modulus := by rcases hm with hh | hh <;> omega
  cases e
  case disconnect =>
    simp only [Connected.handle, Data.clear_iframe_queue] at h
    injection h with h1
    injection h1 with h2 h3
    subst h2; subst h3
    exact C1Inv_other _ hm (by simp [firstState]) (by simp [firstState])
  case data payload =>
    simp only [Connected.handle] at h
    split at h
    · cases h
    · obtain ⟨e1, e2, e3, e4⟩ :=
        flush_inv { d with obuf := d.obuf ++ payload } hm0 hc d' acts h
      exact C1Inv_conn _ (by rw [(e1 : d'.modulus = d.modulus)]; exact hm) e3
  case sabm poll src =>
    simp only [Connected.handle, Connected.sabm_or_sabme, Data.set_version_2,
      Data.clear_exception_conditions] at h
    injection h with h1
    injection h1 with h2 h3
    subst h2; subst h3
    exact C1Inv_reset _ (Or.inl rfl) rfl rfl
  case sabme poll src =>
    simp only [Connected.handle, Connected.sabm_or_sabme, Data.set_version_2_2,
      Data.clear_exception_conditions] at h
    injection h with h1
    injection h1 with h2 h3
    subst h2; subst h3
    exact C1Inv_reset _ (Or.inr rfl) rfl rfl
  case dm poll =>
    simp only [Connected.handle, Data.clear_iframe_queue] at h
    injection h with h1
    injection h1 with h2 h3
    subst h2; subst h3
    exact C1Inv_other _ hm (by simp [firstState]) (by simp [firstState])
  case disc poll =>
    simp only [Connected.handle, Data.clear_iframe_queue] at h
    injection h with h1
    injection h1 with h2 h3
    subst h2; subst h3
    exact C1Inv_other _ hm (by simp [firstState]) (by simp [firstState])
  case ua poll =>
    simp only [Connected.handle, Data.establish_data_link,
      Data.clear_exception_conditions] at h
    injection h with h1
    injection h1 with h2 h3
    subst h2; subst h3
    exact C1Inv_other _ hm (by simp [firstState]) (by simp [firstState])
  case frmr poll =>
    simp only [Connected.handle, Data.establish_data_link,
      Data.clear_exception_conditions] at h
    injection h with h1
    injection h1 with h2 h3
    subst h2; subst h3
    exact C1Inv_other _ hm (by simp [firstState]) (by simp [firstState])
  case t1 =>
    simp only [Connected.handle, Data.transmit_enquiry,
      Data.clear_iframe_queue] at h
    split at h
    · split at h <;>
        (injection h with h1; injection h1 with h2 h3; subst h2; subst h3;
         exact C1Inv_conn _ hm hc)
    · injection h with h1
      injection h1 with h2 h3
      subst h2; subst h3
      exact C1Inv_other _ hm (by simp [firstState]) (by simp [firstState])
  case t3 =>
    simp only [Connected.handle, Data.transmit_enquiry] at h
    split at h <;>
      (injection h with h1; injection h1 with h2 h3; subst h2; subst h3;
       exact C1Inv_conn _ hm hc)
  case ui push payload cr =>
    simp only [Connected.handle, Data.ui_check, Data.enquiry_response] at h
    split at h
    · split at h <;>
        (injection h with h1; injection h1 with h2 h3; subst h2; subst h3;
         exact C1Inv_conn _ hm hc)
    · injection h with h1
      injection h1 with h2 h3
      subst h2; subst h3
      exact C1Inv_conn _ hm hc
  case connect addr ext =>
    simp only [Connected.handle] at h
    injection h with h1
    injection h1 with h2 h3
    subst h2; subst h3
    exact C1Inv_conn _ hm hc
  case rnr poll nr =>
    simp only [Connected.handle] at h
    injection h with h1
    injection h1 with h2 h3
    subst h2; subst h3
    exact C1Inv_conn _ hm hc
  case rej poll nr =>
    simp only [Connected.handle] at h
    injection h with h1
    injection h1 with h2 h3
    subst h2; subst h3
    exact C1Inv_conn _ hm hc
  case srej poll nr =>
    simp only [Connected.handle] at h
    injection h with h1
    injection h1 with h2 h3
    subst h2; subst h3
    exact C1Inv_conn _ hm hc
  case xid poll cr =>
    simp only [Connected.handle] at h
    injection h with h1
    injection h1 with h2 h3
    subst h2; subst h3
    exact C1Inv_conn _ hm hc
  case test poll payload cr =>
    simp only [Connected.handle] at h
    injection h with h1
    injection h1 with h2 h3
    subst h2; subst h3
    exact C1Inv_conn _ hm hc
  case iframe i cr =>
    simp only [Connected.handle, Connected.iframe, Data.establish_data_link,
      Data.clear_exception_conditions, Data.nr_error_recovery] at h
    split at h
    · injection h with h1
      injection h1 with h2 h3
      subst h2; subst h3
      exact C1Inv_conn _ hm hc
    · split at h
      · injection h with h1
        injection h1 with h2 h3
        subst h2; subst h3
        exact C1Inv_other _ hm (by simp [firstState]) (by simp [firstState])
      · split at h
        · cases h
        · injection h with h1
          injection h1 with h2 h3
          subst h2; subst h3
          exact C1Inv_other _ hm (by simp [firstState]) (by simp [firstState])
        · next heqr =>
          split at h
          · cases h
          · next dmid a2 heq =>
            have lem := fun hA hB hC =>
              check_iframe_acked_inv _ i.nr hA hB hC dmid a2 heq
            obtain ⟨s1, s2, s3, s4⟩ := lem hm0 hc heqr
            split at h
            · split at h <;>
                (injection h with h1; injection h1 with h2 h3;
                 subst h2; subst h3;
                 exact C1Inv_conn _ ((s1 : _ = d.modulus) ▸ hm) s3)
            · split at h
              · split at h
                · injection h with h1
                  injection h1 with h2 h3
                  subst h2; subst h3
                  exact C1Inv_conn _ ((s1 : _ = d.modulus) ▸ hm) s3
                · split at h <;>
                    (injection h with h1; injection h1 with h2 h3;
                     subst h2; subst h3;
                     exact C1Inv_conn _ ((s1 : _ = d.modulus) ▸ hm) s3)
              · split at h
                · split at h <;>
                    (injection h with h1; injection h1 with h2 h3;
                     subst h2; subst h3;
                     exact C1Inv_conn _ ((s1 : _ = d.modulus) ▸ hm) s3)
                · split at h
                  · injection h with h1
                    injection h1 with h2 h3
                    subst h2; subst h3
                    exact C1Inv_conn _ ((s1 : _ = d.modulus) ▸ hm) s3
                  · split at h
                    · injection h with h1
                      injection h1 with h2 h3
                      subst h2; subst h3
                      exact C1Inv_conn _ ((s1 : _ = d.modulus) ▸ hm) s3
                    · split at h <;>
                        (injection h with h1; injection h1 with h2 h3;
                         subst h2; subst h3;
                         exact C1Inv_conn _ ((s1 : _ = d.modulus) ▸ hm) s3)
  case rr poll nr cr =>
    cases cs
    case Connected =>
      cases cr
      case false =>
        cases poll
        case false =>
          simp [Connected.handle, Connected.rr_connected,
            Data.check_need_for_response, Data.enquiry_response,
            Data.nr_error_recovery, Data.establish_data_link,
            Data.clear_exception_conditions] at h
          split at h
          case h_1 => cases h
          case h_2 heqr =>
            injection h with h1
            injection h1 with h2 h3
            subst h2; subst h3
            exact C1Inv_other _ hm (by simp [firstState]) (by simp [firstState])
          case h_3 heqr =>
            split at h
            · cases h
            · next dmid a2 heq =>
              have lem := fun hA hB hC =>
                check_iframe_acked_inv _ nr hA hB hC dmid a2 heq
              obtain ⟨s1, s2, s3, s4⟩ := lem hm0 hc heqr
              injection h with h1
              injection h1 with h2 h3
              subst h2; subst h3
              exact C1Inv_conn _ ((s1 : _ = d.modulus) ▸ hm) s3
        case true =>
          simp [Connected.handle, Connected.rr_connected,
            Data.check_need_for_response, Data.enquiry_response,
            Data.nr_error_recovery, Data.establish_data_link,
            Data.clear_exception_conditions] at h
          split at h
          case h_1 => cases h
          case h_2 heqr =>
            injection h with h1
            injection h1 with h2 h3
            subst h2; subst h3
            exact C1Inv_other _ hm (by simp [firstState]) (by simp [firstState])
          case h_3 heqr =>
            split at h
            · cases h
            · next dmid a2 heq =>
              have lem := fun hA hB hC =>
                check_iframe_acked_inv _ nr hA hB hC dmid a2 heq
              obtain ⟨s1, s2, s3, s4⟩ := lem hm0 hc heqr
              injection h with h1
              injection h1 with h2 h3
              subst h2; subst h3
              exact C1Inv_conn _ ((s1 : _ = d.modulus) ▸ hm) s3
      case true =>
        cases poll
        case false =>
          simp [Connected.handle, Connected.rr_connected,
            Data.check_need_for_response, Data.enquiry_response,
            Data.nr_error_recovery, Data.establish_data_link,
            Data.clear_exception_conditions] at h
          split at h
          case h_1 => cases h
          case h_2 heqr =>
            injection h with h1
            injection h1 with h2 h3
            subst h2; subst h3
            exact C1Inv_other _ hm (by simp [firstState]) (by simp [firstState])
          case h_3 heqr =>
            split at h
            · cases h
            · next dmid a2 heq =>
              have lem := fun hA hB hC =>
                check_iframe_acked_inv _ nr hA hB hC dmid a2 heq
              obtain ⟨s1, s2, s3, s4⟩ := lem hm0 hc heqr
              injection h with h1
              injection h1 with h2 h3
              subst h2; subst h3
              exact C1Inv_conn _ ((s1 : _ = d.modulus) ▸ hm) s3
        case true =>
          cases hob : d.own_receiver_busy <;>
            simp [Connected.handle, Connected.rr_connected,
              Data.check_need_for_response, Data.enquiry_response,
              Data.nr_error_recovery, Data.establish_data_link,
              Data.clear_exception_conditions, hob] at h
          all_goals
            split at h
            case h_1 => cases h
            case h_2 heqr =>
              injection h with h1
              injection h1 with h2 h3
              subst h2; subst h3
              exact C1Inv_other _ hm (by simp [firstState]) (by simp [firstState])
            case h_3 heqr =>
              split at h
              · cases h
              · next dmid a2 heq =>
                have lem := fun hA hB hC =>
                  check_iframe_acked_inv _ nr hA hB hC dmid a2 heq
                obtain ⟨s1, s2, s3, s4⟩ := lem hm0 hc heqr
                injection h with h1
                injection h1 with h2 h3
                subst h2; subst h3
                exact C1Inv_conn _ ((s1 : _ = d.modulus) ▸ hm) s3
    case TimerRecovery =>
      cases cr
      case false =>
        cases poll
        case false =>
          simp [Connected.handle, Connected.rr_timer_recovery,
            Data.select_t1_value, Data.enquiry_response,
            Data.invoke_retransmission, Data.nr_error_recovery,
            Data.establish_data_link, Data.clear_exception_conditions] at h
          split at h
          case h_1 => cases h
          case h_2 heqr =>
            split at h
            · cases h
            · next dmid a2 hequ =>
              have lem := fun hA hB hC =>
                update_ack_inv _ nr hA hB hC dmid a2 hequ
              obtain ⟨s1, s2, s3, s4⟩ := lem hm0 hc heqr
              injection h with h1
              injection h1 with h2 h3
              subst h2; subst h3
              exact C1Inv_conn _ ((s1 : _ = d.modulus) ▸ hm) s3
          case h_3 heqr =>
            injection h with h1
            injection h1 with h2 h3
            subst h2; subst h3
            exact C1Inv_other _ hm (by simp [firstState]) (by simp [firstState])
        case true =>
          simp [Connected.handle, Connected.rr_timer_recovery,
            Data.select_t1_value, Data.enquiry_response,
            Data.invoke_retransmission, Data.nr_error_recovery,
            Data.establish_data_link, Data.clear_exception_conditions] at h
          split at h
          case h_1 => cases h
          case h_2 heqr =>
            injection h with h1
            injection h1 with h2 h3
            subst h2; subst h3
            exact C1Inv_other _ hm (by simp [firstState]) (by simp [firstState])
          case h_3 heqr =>
            split at h
            · cases h
            · next dmid a2 hequ =>
              have lem := fun hA hB hC =>
                update_ack_inv _ nr hA hB hC dmid a2 hequ
              obtain ⟨s1, s2, s3, s4⟩ := lem hm0 hc heqr
              split at h <;>
                (injection h with h1; injection h1 with h2 h3;
                 subst h2; subst h3;
                 exact C1Inv_conn _ ((s1 : _ = d.modulus) ▸ hm) s3)
      case true =>
        cases poll
        case false =>
          simp [Connected.handle, Connected.rr_timer_recovery,
            Data.select_t1_value, Data.enquiry_response,
            Data.invoke_retransmission, Data.nr_error_recovery,
            Data.establish_data_link, Data.clear_exception_conditions] at h
          split at h
          case h_1 => cases h
          case h_2 heqr =>
            split at h
            · cases h
            · next dmid a2 hequ =>
              have lem := fun hA hB hC =>
                update_ack_inv _ nr hA hB hC dmid a2 hequ
              obtain ⟨s1, s2, s3, s4⟩ := lem hm0 hc heqr
              injection h with h1
              injection h1 with h2 h3
              subst h2; subst h3
              exact C1Inv_conn _ ((s1 : _ = d.modulus) ▸ hm) s3
          case h_3 heqr =>
            injection h with h1
            injection h1 with h2 h3
            subst h2; subst h3
            exact C1Inv_other _ hm (by simp [firstState]) (by simp [firstState])
        case true =>
          cases hob : d.own_receiver_busy <;>
            simp [Connected.handle, Connected.rr_timer_recovery,
              Data.select_t1_value, Data.enquiry_response,
              Data.invoke_retransmission, Data.nr_error_recovery,
              Data.establish_data_link, Data.clear_exception_conditions,
              hob] at h
          all_goals
            split at h
            case h_1 => cases h
            case h_2 heqr =>
              split at h
              · cases h
              · next dmid a2 hequ =>
                have lem := fun hA hB hC =>
                  update_ack_inv _ nr hA hB hC dmid a2 hequ
                obtain ⟨s1, s2, s3, s4⟩ := lem hm0 hc heqr
                injection h with h1
                injection h1 with h2 h3
                subst h2; subst h3
                exact C1Inv_conn _ ((s1 : _ = d.modulus) ▸ hm) s3
            case h_3 heqr =>
              injection h with h1
              injection h1 with h2 h3
              subst h2; subst h3
              exact C1Inv_other _ hm (by simp [firstState]) (by simp [firstState])

/-- fn handle preserves the reachability invariant. -/
theorem handle_inv (st : StateId) (d : Data) (e : Event)
    (hinv : C1Inv st d) (r : Option StateId × Data × List ReturnEvent)
    (h : handle st d e = some r) :
    C1Inv ((r.1).getD st) r.2.1 := by
  unfold handle at h
  split at h
  · cases h
  · next d2 acts hact =>
    rcases hconv : convertActs d2 acts with _ | revs
    · rw [hconv] at h; cases h
    · rw [hconv, Option.map_some'] at h
      injection h with h1
      subst h1
      cases st
      case disconnected =>
        simp only [handleAct, Option.some.injEq] at hact
        exact disconnected_inv d e d2 acts hinv.1 hact
      case awaitingConnection =>
        simp only [handleAct, Option.some.injEq] at hact
        exact awaitingConnection_inv d e d2 acts hinv.1 hact
      case awaitingRelease =>
        simp only [handleAct, Option.some.injEq] at hact
        exact awaitingRelease_inv d e d2 acts hinv.1 hact
      case connected =>
        simp only [handleAct] at hact
        exact connected_inv .Connected _ d e d2 acts hinv.1
          (hinv.2 (Or.inl rfl)) hact
      case timerRecovery =>
        simp only [handleAct] at hact
        exact connected_inv .TimerRecovery _ d e d2 acts hinv.1
          (hinv.2 (Or.inr rfl)) hact

/-- Driving any event list through fn handle preserves the invariant. -/
theorem run_inv (evs : List Event) :
    ∀ st d r, C1Inv st d → run st d evs = some r → C1Inv r.1 r.2.1 := by
  induction evs with
  | nil =>
    intro st d r hinv h
    rw [run] at h
    injection h with h1
    subst h1
    exact hinv
  | cons e rest ih =>
    intro st d r hinv h
    rw [run] at h
    split at h
    · cases h
    · next stOpt d2 revs hh =>
      split at h
      · cases h
      · next stF dF revsF hr =>
        injection h with h1
        subst h1
        have hinv2 := handle_inv st d e hinv (stOpt, d2, revs) hh
        exact ih (stOpt.getD st) d2 (stF, dF, revsF) hinv2 hr

/-- C1 (amended): after any sequence of events applied to a fresh
connection whose run neither panics nor diverges, whenever the machine is
in Connected or TimerRecovery the resend queue holds at least
(V(S) - V(A)) mod modulus frames, and that distance is at most K.  (The
spec's equality fails: connection resets zero V(S)/V(A) without clearing
the queue, and teardown paths clear the queue without resetting V(S)/V(A);
see the counterexample.) -/
theorem claim_C1_amended (me : Addr) (evs : List Event) (st : StateId)
    (d : Data) (revs : List ReturnEvent)
    (h : run .disconnected (Data.new me) evs = some (st, d, revs))
    (hst : st = .connected ∨ st = .timerRecovery) :
    (d.vs + d.modulus - d.va) % d.modulus ≤ d.iframe_resend_queue.length ∧
    (d.vs + d.modulus - d.va) % d.modulus ≤ d.k := by
  have hbase : C1Inv .disconnected (Data.new me) :=
    ⟨Or.inl rfl, fun hh => absurd hh (by rintro (h1 | h1) <;> cases h1)⟩
  obtain ⟨hmod, hconn⟩ :=
    run_inv evs .disconnected (Data.new me) (st, d, revs) hbase h
  obtain ⟨hva, hvs, hck, hcq⟩ := hconn hst
  exact ⟨hcq, hck⟩

/-- C6 counterexample: a well-addressed 15-byte frame with U control 0x23
(its poll-masked value matches no recognised U control) makes
Packet::parse hit the todo! arm, a panic: it does not return an error as
the claim states. -/
theorem claim_C6_counterexample :
    Packet.parse (dstBytesC ++ srcBytesR ++ [0x23]) = ParseResult.panicked ∧
    Packet.parse (dstBytesC ++ srcBytesR ++ [0x23]) ≠ ParseResult.err := by
  decide

/-- C6 (amended): for every input of at least 15 bytes with valid
addresses whose first control octet has low bits 11 but whose poll-masked
control value matches none of the recognised U controls, Packet::parse
panics via the todo! arm instead of returning an error. -/
theorem claim_C6_amended (bytes : List Nat) (dst src : Addr)
    (hlen : 15 ≤ bytes.length)
    (hdst : Addr.parse (bytes.take 7) = some dst)
    (hsrc : Addr.parse ((bytes.drop 7).take 7) = some src)
    (hu : (bytes.getD 14 0) &&& TYPE_MASK = 3)
    (hc : ∀ c ∈ [CONTROL_SABME, CONTROL_SABM, CONTROL_UA, CONTROL_DISC,
        CONTROL_DM, CONTROL_FRMR, CONTROL_UI, CONTROL_XID, CONTROL_TEST],
      (bytes.getD 14 0) &&& 0xEF ≠ c) :
    Packet.parse bytes = ParseResult.panicked := by
  simp only [Packet.parse, hdst, hsrc,
    if_neg (by omega : ¬ bytes.length < 15)]
  rw [if_pos (by
    simp only [Bool.or_eq_true, Bool.not_eq_true', decide_eq_true_eq]
    exact Or.inr hu)]
  simp only [parseBody, hu]
  rw [if_neg (by decide : ¬((3 : Nat) = 0 ∨ (3 : Nat) = 2)),
    if_neg (by decide : ¬((3 : Nat) = 1)), if_pos trivial,
    if_neg (hc CONTROL_SABME (by simp)), if_neg (hc CONTROL_SABM (by simp)),
    if_neg (hc CONTROL_UA (by simp)), if_neg (hc CONTROL_DISC (by simp)),
    if_neg (hc CONTROL_DM (by simp)), if_neg (hc CONTROL_FRMR (by simp)),
    if_neg (hc CONTROL_UI (by simp)), if_neg (hc CONTROL_XID (by simp)),
    if_neg (hc CONTROL_TEST (by simp))]

theorem claim_C6_amended_witness :
    (15 ≤ (dstBytesC ++ srcBytesR ++ [0x23]).length ∧
     Addr.parse ((dstBytesC ++ srcBytesR ++ [0x23]).take 7) = some m2cmd ∧
     Addr.parse (((dstBytesC ++ srcBytesR ++ [0x23]).drop 7).take 7) = some m1last ∧
     ((dstBytesC ++ srcBytesR ++ [0x23]).getD 14 0) &&& TYPE_MASK = 3) ∧
    Packet.parse (dstBytesC ++ srcBytesR ++ [0x23]) = ParseResult.panicked :=
  ⟨⟨by decide, by decide, by decide, by decide⟩,
    claim_C6_amended (dstBytesC ++ srcBytesR ++ [0x23]) m2cmd m1last
      (by decide) (by decide) (by decide) (by decide) (by decide)⟩

theorem claim_C1_amended_witness :
    (run .disconnected (Data.new m0thc1) [.connect m0thc2 false, .ua true] =
      some (c1wSt, c1wD, c1wRevs)) ∧
    (c1wSt = .connected ∨ c1wSt = .timerRecovery) ∧
    ((c1wD.vs + c1wD.modulus - c1wD.va) % c1wD.modulus ≤
      c1wD.iframe_resend_queue.length ∧
     (c1wD.vs + c1wD.modulus - c1wD.va) % c1wD.modulus ≤ c1wD.k) :=
  ⟨rfl, Or.inl rfl,
    claim_C1_amended m0thc1 [.connect m0thc2 false, .ua true] c1wSt c1wD
      c1wRevs rfl (Or.inl rfl)⟩

/-! Helper lemmas for the address codec roundtrip. -/

theorem isCallChar_bounds {c : Char} (h : isCallChar c = true) :
    48 ≤ c.toNat ∧ c.toNat ≤ 90 := by
  simp only [isCallChar, decide_eq_true_eq] at h
  rcases h with ⟨h1, h2⟩ | ⟨h1, h2⟩
  · rw [Char.le_def] at h1 h2
    have h1' : (65 : Nat) ≤ c.toNat := h1
    have h2' : c.toNat ≤ (90 : Nat) := h2
    omega
  · rw [Char.le_def] at h1 h2
    have h1' : (48 : Nat) ≤ c.toNat := h1
    have h2' : c.toNat ≤ (57 : Nat) := h2
    omega

theorem isDigitChar_bounds {c : Char} (h : isDigitChar c = true) :
    48 ≤ c.toNat ∧ c.toNat ≤ 57 := by
  simp only [isDigitChar, decide_eq_true_eq] at h
  obtain ⟨h1, h2⟩ := h
  rw [Char.le_def] at h1 h2
  have h1' : (48 : Nat) ≤ c.toNat := h1
  have h2' : c.toNat ≤ (57 : Nat) := h2
  omega

theorem char_eq_of_toNat {c : Char} {n : Nat} (h : c.toNat = n) :
    c = Char.ofNat n := by
  rw [← h, Char.ofNat_toNat]

theorem upChar_of_lt {c : Char} (h : c.toNat < 97) : upChar c = c := by
  unfold upChar
  rw [if_neg]
  rintro ⟨h1, -⟩
  rw [Char.le_def] at h1
  have h1' : (97 : Nat) ≤ c.toNat := h1
  omega

theorem not_isWs_of_ge {c : Char} (h : 48 ≤ c.toNat) : ¬ (isWs c = true) := by
  simp only [isWs, decide_eq_true_eq, not_or]
  constructor
  · rintro rfl
    simp at h
  · omega

theorem ne_dash_of_callChar {c : Char} (h : isCallChar c = true) :
    decide (c ≠ '-') = true := by
  obtain ⟨h1, -⟩ := isCallChar_bounds h
  simp only [ne_eq, decide_eq_true_eq]
  rintro rfl
  simp at h1

theorem shift_char_rt : ∀ y < 128, (((y % 256) <<< 1) % 256) >>> 1 = y := by decide

theorem serialize_char_rt {c : Char} (h48 : 48 ≤ c.toNat) (h90 : c.toNat ≤ 90) :
    Char.ofNat ((((c.toNat % 256) <<< 1) % 256) >>> 1) = c := by
  rw [shift_char_rt c.toNat (by omega), Char.ofNat_toNat]

theorem b6_bits : ∀ ssid < 16, ∀ l h re rd : Bool,
    ((((ssid <<< 1) % 256) ||| (if re then 0 else 0x40) ||| (if rd then 0 else 0x20) |||
        (if l then 1 else 0) ||| (if h then 0x80 else 0)) >>> 1) &&& 15 = ssid ∧
      decide ((((ssid <<< 1) % 256) ||| (if re then 0 else 0x40) ||| (if rd then 0 else 0x20) |||
        (if l then 1 else 0) ||| (if h then 0x80 else 0)) &&& 1 ≠ 0) = l ∧
      decide ((((ssid <<< 1) % 256) ||| (if re then 0 else 0x40) ||| (if rd then 0 else 0x20) |||
        (if l then 1 else 0) ||| (if h then 0x80 else 0)) &&& 0x80 ≠ 0) = h ∧
      decide ((((ssid <<< 1) % 256) ||| (if re then 0 else 0x40) ||| (if rd then 0 else 0x20) |||
        (if l then 1 else 0) ||| (if h then 0x80 else 0)) &&& 0x40 = 0) = re ∧
      decide ((((ssid <<< 1) % 256) ||| (if re then 0 else 0x40) ||| (if rd then 0 else 0x20) |||
        (if l then 1 else 0) ||| (if h then 0x80 else 0)) &&& 0x20 = 0) = rd := by
  decide

theorem takeWhile_all_pos {α : Type} {p : α → Bool} {l : List α}
    (h : ∀ a ∈ l, p a = true) : l.takeWhile p = l := by
  induction l with
  | nil => rfl
  | cons a t ih =>
    rw [List.takeWhile_cons_of_pos (h a (List.mem_cons_self a t))]
    rw [ih fun x hx => h x (List.mem_cons_of_mem a hx)]

theorem dropWhile_all_pos {α : Type} {p : α → Bool} {l : List α}
    (h : ∀ a ∈ l, p a = true) : l.dropWhile p = [] := by
  induction l with
  | nil => rfl
  | cons a t ih =>
    rw [List.dropWhile_cons_of_pos (h a (List.mem_cons_self a t))]
    exact ih fun x hx => h x (List.mem_cons_of_mem a hx)

theorem drop_length_takeWhile {α : Type} (p : α → Bool) (l : List α) :
    l.drop (l.takeWhile p).length = l.dropWhile p := by
  induction l with
  | nil => rfl
  | cons a t ih =>
    by_cases hpa : p a = true
    · rw [List.takeWhile_cons_of_pos hpa, List.dropWhile_cons_of_pos hpa,
        List.length_cons, List.drop_succ_cons]
      exact ih
    · rw [List.takeWhile_cons_of_neg hpa, List.dropWhile_cons_of_neg hpa]
      rfl

theorem trimEnd_pad {base : List Char} (n : Nat) (hne : base ≠ [])
    (hb : ∀ c ∈ base, 48 ≤ c.toNat) :
    trimEnd (base ++ List.replicate n ' ') = base := by
  unfold trimEnd
  rw [List.reverse_append, List.reverse_replicate]
  rw [List.dropWhile_append_of_pos (by
    intro a ha
    rw [List.eq_of_mem_replicate ha]
    decide)]
  cases hr : base.reverse with
  | nil =>
    rw [List.reverse_eq_nil_iff] at hr
    exact absurd hr hne
  | cons c t =>
    have hc : c ∈ base := by
      rw [← List.mem_reverse, hr]
      exact List.mem_cons_self c t
    rw [List.dropWhile_cons_of_neg (by
      simpa using not_isWs_of_ge (hb c hc)), ← hr, List.reverse_reverse]

theorem charsToNat_single {c : Char} (h : isDigitChar c = true) :
    charsToNat [c] = some (c.toNat - 48) := by
  obtain ⟨h1, h2⟩ := isDigitChar_bounds h
  simp only [charsToNat, List.all_cons, List.all_nil, h, Bool.and_true, if_true,
    List.foldl_cons, List.foldl_nil]
  rw [if_pos (by omega)]
  simp

theorem charsToNat_pair {d : Char} (h1 : 48 ≤ d.toNat) (h2 : d.toNat ≤ 53) :
    charsToNat ['1', d] = some (10 + (d.toNat - 48)) := by
  have hd : isDigitChar d = true := by
    simp only [isDigitChar, decide_eq_true_eq]
    constructor
    · show (48 : Nat) ≤ d.toNat
      omega
    · show d.toNat ≤ (57 : Nat)
      omega
  have h49 : ('1').toNat = 49 := by decide
  simp only [charsToNat, List.all_cons, List.all_nil, hd, Bool.and_true,
    List.foldl_cons, List.foldl_nil, h49]
  rw [if_pos (by decide), if_pos (by omega)]

theorem natToChars_single {v : Nat} (h : v < 10) :
    natToChars v = [Char.ofNat (48 + v)] := by
  unfold natToChars
  rw [if_pos h]

theorem natToChars_pair {v : Nat} (h1 : 10 ≤ v) (h2 : v ≤ 15) :
    natToChars v = ['1', Char.ofNat (48 + (v - 10))] := by
  unfold natToChars
  rw [if_neg (by omega)]
  have e1 : 48 + v / 10 = 49 := by omega
  have e2 : 48 + v % 10 = 48 + (v - 10) := by omega
  rw [e1, e2]

theorem toUpper_eq_self {s : List Char} (h : ∀ c ∈ s, c.toNat < 97) :
    toUpper s = s := by
  unfold toUpper
  rw [List.map_congr_left fun c hc => upChar_of_lt (h c hc)]
  simp

theorem new_bits_of_valid {s : List Char} (hu : toUpper s = s)
    (hv : validCall s = true) (l h re rd : Bool) :
    Addr.new_bits s l h re rd = some ⟨s, re, h, l, rd⟩ := by
  simp only [Addr.new_bits, Addr.new, hu, if_pos hv]
  rfl

theorem Addr_parse_head (base : List Char) (n b6 : Nat)
    (hlen : base.length + n = 6) (hne : base ≠ [])
    (hcall : ∀ c ∈ base, isCallChar c = true) :
    Addr.parse ((base.map (fun ch => ((ch.toNat % 256) <<< 1) % 256) ++
        List.replicate n ((' '.toNat <<< 1) % 256)) ++ [b6]) =
      Addr.new_bits
        (if (b6 >>> 1) &&& 15 > 0 then
          base ++ '-' :: natToChars ((b6 >>> 1) &&& 15) else base)
        (b6 &&& 1 ≠ 0) (b6 &&& 0x80 ≠ 0) (b6 &&& 0x40 = 0) (b6 &&& 0x20 = 0) := by
  have hhd : (base.map (fun ch => ((ch.toNat % 256) <<< 1) % 256) ++
      List.replicate n ((' '.toNat <<< 1) % 256)).length = 6 := by
    simp only [List.length_append, List.length_map, List.length_replicate]
    exact hlen
  have hgd : ((base.map (fun ch => ((ch.toNat % 256) <<< 1) % 256) ++
      List.replicate n ((' '.toNat <<< 1) % 256)) ++ [b6]).getD 6 0 = b6 := by
    rw [List.getD_eq_getElem?_getD, List.getElem?_append_right (by rw [hhd]), hhd]
    rfl
  have htk : ((base.map (fun ch => ((ch.toNat % 256) <<< 1) % 256) ++
      List.replicate n ((' '.toNat <<< 1) % 256)) ++ [b6]).take 6 =
      base.map (fun ch => ((ch.toNat % 256) <<< 1) % 256) ++
        List.replicate n ((' '.toNat <<< 1) % 256) := by
    rw [← hhd]
    exact List.take_left _ _
  have hmap : (base.map (fun ch => ((ch.toNat % 256) <<< 1) % 256) ++
      List.replicate n ((' '.toNat <<< 1) % 256)).map (fun c => Char.ofNat (c >>> 1)) =
      base ++ List.replicate n ' ' := by
    rw [List.map_append, List.map_map, List.map_replicate]
    congr 1
    rw [List.map_congr_left (fun c hc => by
      simp only [Function.comp_apply]
      obtain ⟨h1, h2⟩ := isCallChar_bounds (hcall c hc)
      exact serialize_char_rt h1 h2)]
    simp
  have htrim : trimEnd (base ++ List.replicate n ' ') = base :=
    trimEnd_pad n hne (fun c hc => (isCallChar_bounds (hcall c hc)).1)
  unfold Addr.parse
  rw [if_pos (by
    simp only [List.length_append, List.length_map, List.length_replicate,
      List.length_cons, List.length_nil]
    omega)]
  simp only [htk, hgd, hmap, htrim]

theorem ne_dash_of_ge {c : Char} (h : 48 ≤ c.toNat) : decide (c ≠ '-') = true := by
  simp only [ne_eq, decide_eq_true_eq]
  rintro rfl
  simp at h

theorem addr_serialize_parse_nodash (a : Addr) (l h re rd : Bool)
    (hat : a.t.takeWhile (fun c => c ≠ '-') = a.t)
    (hdw : a.t.dropWhile (fun c => c ≠ '-') = [])
    (hb3 : 3 ≤ a.t.length) (hb6 : a.t.length ≤ 6)
    (hball : ∀ c ∈ a.t, isCallChar c = true)
    (hv : validCall a.t = true) :
    ∃ bs, a.serialize l h re rd = some bs ∧ bs.length = 7 ∧
      Addr.parse bs = some { a with lowbit := l, highbit := h, rbit_ext := re, rbit_dama := rd } := by
  have hne : a.t ≠ [] := by
    intro hnil
    rw [hnil] at hb3
    simp at hb3
  have htk6 : a.t.take 6 = a.t := List.take_of_length_le hb6
  have hafter : afterDash a.t = none := by
    unfold afterDash
    rw [hdw]
  have hser : a.serialize l h re rd = some
      ((a.t.map (fun ch => ((ch.toNat % 256) <<< 1) % 256) ++
        List.replicate (6 - a.t.length) ((' '.toNat <<< 1) % 256)) ++
       [((0 <<< 1) % 256) ||| (if re then 0 else 0x40) ||| (if rd then 0 else 0x20) |||
        (if l then 1 else 0) ||| (if h then 0x80 else 0)]) := by
    simp only [Addr.serialize, htk6, hat, hafter]
    rfl
  refine ⟨_, hser, ?_, ?_⟩
  · simp only [List.length_append, List.length_map, List.length_replicate,
      List.length_cons, List.length_nil]
    omega
  · rw [Addr_parse_head a.t (6 - a.t.length) _ (by omega) hne hball]
    obtain ⟨hs0, hl, hh, hre, hrd⟩ := b6_bits 0 (by norm_num) l h re rd
    rw [hs0, hl, hh, hre, hrd, if_neg (by norm_num)]
    have hupper : toUpper a.t = a.t := toUpper_eq_self (by
      intro c hc
      obtain ⟨-, h2⟩ := isCallChar_bounds (hball c hc)
      omega)
    rw [new_bits_of_valid hupper hv]

theorem addr_serialize_parse_dash (a : Addr) (l h re rd : Bool)
    (bse ssl : List Char) (v : Nat)
    (hat : bse ++ '-' :: ssl = a.t)
    (hdw : a.t.dropWhile (fun c => c ≠ '-') = '-' :: ssl)
    (hb3 : 3 ≤ bse.length) (hb6 : bse.length ≤ 6)
    (hball : ∀ c ∈ bse, isCallChar c = true)
    (hv : validCall a.t = true)
    (hcn : charsToNat ssl = some v)
    (hna : natToChars v = ssl)
    (hv1 : 1 ≤ v) (hv15 : v ≤ 15)
    (hdig : ∀ c ∈ ssl, 48 ≤ c.toNat ∧ c.toNat ≤ 57) :
    ∃ bs, a.serialize l h re rd = some bs ∧ bs.length = 7 ∧
      Addr.parse bs = some { a with lowbit := l, highbit := h, rbit_ext := re, rbit_dama := rd } := by
  have hne : bse ≠ [] := by
    intro hnil
    rw [hnil] at hb3
    simp at hb3
  have hpred : ∀ c ∈ bse, (fun c : Char => decide (c ≠ '-')) c = true :=
    fun c hc => ne_dash_of_ge (isCallChar_bounds (hball c hc)).1
  have htake6 : a.t.take 6 = bse ++ ('-' :: ssl).take (6 - bse.length) := by
    rw [← hat]
    conv_lhs => rw [(by omega : (6 : Nat) = bse.length + (6 - bse.length))]
    rw [List.take_append]
  have hbase : (a.t.take 6).takeWhile (fun c => c ≠ '-') = bse := by
    rw [htake6, List.takeWhile_append_of_pos hpred]
    cases hk : 6 - bse.length with
    | zero => simp
    | succ k =>
      rw [List.take_succ_cons, List.takeWhile_cons_of_neg (by decide), List.append_nil]
  have hafter : afterDash a.t = some ssl := by
    unfold afterDash
    rw [hdw]
    show some (ssl.takeWhile (fun c => c ≠ '-')) = some ssl
    rw [takeWhile_all_pos (fun c hc => ne_dash_of_ge (hdig c hc).1)]
  have hser : a.serialize l h re rd = some
      ((bse.map (fun ch => ((ch.toNat % 256) <<< 1) % 256) ++
        List.replicate (6 - bse.length) ((' '.toNat <<< 1) % 256)) ++
       [((v <<< 1) % 256) ||| (if re then 0 else 0x40) ||| (if rd then 0 else 0x20) |||
        (if l then 1 else 0) ||| (if h then 0x80 else 0)]) := by
    simp only [Addr.serialize, hbase, hafter, hcn]
    rfl
  refine ⟨_, hser, ?_, ?_⟩
  · simp only [List.length_append, List.length_map, List.length_replicate,
      List.length_cons, List.length_nil]
    omega
  · rw [Addr_parse_head bse (6 - bse.length) _ (by omega) hne hball]
    obtain ⟨hs0, hl, hh, hre, hrd⟩ := b6_bits v (by omega) l h re rd
    rw [hs0, hl, hh, hre, hrd, if_pos (by omega), hna, hat]
    have hupper : toUpper a.t = a.t := toUpper_eq_self (by
      intro c hc
      rw [← hat] at hc
      rcases List.mem_append.1 hc with hcb | hcr
      · obtain ⟨-, h2⟩ := isCallChar_bounds (hball c hcb)
        omega
      · rcases List.mem_cons.1 hcr with rfl | hcs
        · decide
        · obtain ⟨-, h2⟩ := hdig c hcs
          omega)
    rw [new_bits_of_valid hupper hv]

theorem addr_serialize_parse (a : Addr) (l h re rd : Bool)
    (hv : validCall a.t = true) (h0 : afterDash a.t ≠ some ['0']) :
    ∃ bs, a.serialize l h re rd = some bs ∧ bs.length = 7 ∧
      Addr.parse bs = some { a with lowbit := l, highbit := h, rbit_ext := re, rbit_dama := rd } := by
  have hv' := hv
  simp only [validCall, decide_eq_true_eq] at hv'
  obtain ⟨⟨hb3, hb6, hbc⟩, hrest⟩ := hv'
  have hball : ∀ c ∈ a.t.takeWhile (fun c => c ≠ '-'), isCallChar c = true := by
    rw [List.all_eq_true] at hbc
    exact hbc
  have hsplit : a.t.takeWhile (fun c => c ≠ '-') ++ a.t.dropWhile (fun c => c ≠ '-') = a.t :=
    List.takeWhile_append_dropWhile _ _
  have hdrop : a.t.drop (a.t.takeWhile (fun c => c ≠ '-')).length =
      a.t.dropWhile (fun c => c ≠ '-') := drop_length_takeWhile _ _
  rw [hdrop] at hrest
  cases hdw : a.t.dropWhile (fun c => c ≠ '-') with
  | nil =>
    have hat : a.t.takeWhile (fun c => c ≠ '-') = a.t := by
      rw [hdw, List.append_nil] at hsplit
      exact hsplit
    exact addr_serialize_parse_nodash a l h re rd hat hdw (hat ▸ hb3) (hat ▸ hb6)
      (hat ▸ hball) hv
  | cons c0 ssl =>
    rw [hdw] at hrest hsplit
    rcases hrest with hbad | ⟨hhd, hss⟩
    · simp at hbad
    · have hc0 : c0 = '-' := by simpa using hhd
      subst hc0
      simp only [List.tail_cons] at hss
      cases ssl with
      | nil => simp [validSsidChars] at hss
      | cons c1 t1 =>
        cases t1 with
        | nil =>
          have hd1 : isDigitChar c1 = true := by simpa [validSsidChars] using hss
          obtain ⟨h48, h57⟩ := isDigitChar_bounds hd1
          have hafter : afterDash a.t = some [c1] := by
            unfold afterDash
            rw [hdw]
            show some ([c1].takeWhile (fun c => c ≠ '-')) = some [c1]
            rw [takeWhile_all_pos]
            intro c hc
            rw [List.mem_singleton] at hc
            subst hc
            exact ne_dash_of_ge h48
          have h480 : c1.toNat ≠ 48 := by
            intro he
            apply h0
            rw [hafter]
            have hc10 : c1 = '0' := (char_eq_of_toNat he).trans (by decide)
            rw [hc10]
          refine addr_serialize_parse_dash a l h re rd _ [c1] (c1.toNat - 48) hsplit hdw
            hb3 hb6 hball hv (charsToNat_single hd1) ?_ (by omega) (by omega) ?_
          · rw [natToChars_single (by omega)]
            have he : 48 + (c1.toNat - 48) = c1.toNat := by omega
            rw [he, Char.ofNat_toNat]
          · intro c hc
            rw [List.mem_singleton] at hc
            subst hc
            exact ⟨h48, h57⟩
        | cons c2 t2 =>
          cases t2 with
          | cons c3 t3 => simp [validSsidChars] at hss
          | nil =>
            have hp : c1 = '1' ∧ '0' ≤ c2 ∧ c2 ≤ '5' := by
              simpa [validSsidChars, decide_eq_true_eq] using hss
            obtain ⟨rfl, hge, hle⟩ := hp
            rw [Char.le_def] at hge hle
            have h48 : (48 : Nat) ≤ c2.toNat := hge
            have h53 : c2.toNat ≤ (53 : Nat) := hle
            refine addr_serialize_parse_dash a l h re rd _ ['1', c2] (10 + (c2.toNat - 48))
              hsplit hdw hb3 hb6 hball hv (charsToNat_pair h48 h53) ?_ (by omega)
              (by omega) ?_
            · rw [natToChars_pair (by omega) (by omega)]
              have he : 10 + (c2.toNat - 48) - 10 = c2.toNat - 48 := by omega
              rw [he]
              have he2 : 48 + (c2.toNat - 48) = c2.toNat := by omega
              rw [he2, Char.ofNat_toNat]
            · intro c hc
              rcases List.mem_cons.1 hc with rfl | hc2
              · exact ⟨by decide, by decide⟩
              · rw [List.mem_singleton] at hc2
                subst hc2
                exact ⟨h48, by omega⟩

/-- Claim C7 counterexample: Addr::new accepts the callsign M0THC-0 (the SSID
regex allows a lone 0), but serializing that address and parsing the bytes
back yields the callsign M0THC: the -0 suffix is erased, so the parse of the
serialized form differs from the original address. -/
theorem claim_C7_counterexample :
    Addr.new ['M', '0', 'T', 'H', 'C', '-', '0'] =
      some ⟨['M', '0', 'T', 'H', 'C', '-', '0'], false, false, false, false⟩ ∧
    Addr.serialize ⟨['M', '0', 'T', 'H', 'C', '-', '0'], false, false, false, false⟩
        false false false false = some [154, 96, 168, 144, 134, 64, 96] ∧
    Addr.parse [154, 96, 168, 144, 134, 64, 96] =
      some ⟨['M', '0', 'T', 'H', 'C'], false, false, false, false⟩ ∧
    (⟨['M', '0', 'T', 'H', 'C'], false, false, false, false⟩ : Addr) ≠
      ⟨['M', '0', 'T', 'H', 'C', '-', '0'], false, false, false, false⟩ :=
  ⟨by decide, by decide, by decide, by decide⟩

/-- Claim C7 amended: for every address whose text passes the Addr::new
callsign regex and does not carry the unrecoverable -0 SSID suffix, and every
choice of the four extra bits, Addr::serialize succeeds with exactly 7 bytes
and Addr::parse of those bytes returns the same callsign text with exactly
those four bits. -/
theorem claim_C7_amended (a : Addr) (l h re rd : Bool)
    (hv : validCall a.t = true) (h0 : afterDash a.t ≠ some ['0']) :
    ∃ bs, a.serialize l h re rd = some bs ∧ bs.length = 7 ∧
      Addr.parse bs = some { a with lowbit := l, highbit := h, rbit_ext := re, rbit_dama := rd } :=
  addr_serialize_parse a l h re rd hv h0

theorem claim_C7_amended_witness :
    validCall m0thc1.t = true ∧ afterDash m0thc1.t ≠ some ['0'] ∧
      (∃ bs, m0thc1.serialize true false false false = some bs ∧ bs.length = 7 ∧
        Addr.parse bs = some { m0thc1 with lowbit := true, highbit := false, rbit_ext := false, rbit_dama := false }) :=
  ⟨by decide, by decide,
    claim_C7_amended m0thc1 true false false false (by decide) (by decide)⟩

theorem new_bits_validCall {s : List Char} {l h re rd : Bool} {a : Addr}
    (hn : Addr.new_bits s l h re rd = some a) : validCall a.t = true := by
  by_cases hvc : validCall (toUpper s) = true
  · simp [Addr.new_bits, Addr.new, hvc] at hn
    subst hn
    exact hvc
  · simp [Addr.new_bits, Addr.new, hvc] at hn

theorem Addr_parse_validCall {bs : List Nat} {a : Addr}
    (h : Addr.parse bs = some a) : validCall a.t = true := by
  unfold Addr.parse at h
  split at h
  · exact new_bits_validCall h
  · simp at h

theorem parse_take7 (db rest : List Nat) (hdb : db.length = 7) :
    (db ++ rest).take 7 = db := by
  rw [← hdb]
  exact List.take_left _ _

theorem parse_drop7 (db rest : List Nat) (hdb : db.length = 7) :
    (db ++ rest).drop 7 = rest := by
  rw [← hdb]
  exact List.drop_left _ _

theorem parse_getD14 (db sb ctl : List Nat) (hdb : db.length = 7)
    (hsb : sb.length = 7) :
    (db ++ sb ++ ctl).getD 14 0 = ctl.getD 0 0 := by
  rw [List.getD_eq_getElem?_getD, List.getD_eq_getElem?_getD, List.append_assoc]
  rw [@List.getElem?_append_right _ db (sb ++ ctl) 14 (by omega)]
  rw [@List.getElem?_append_right _ sb ctl (14 - db.length) (by omega)]
  rw [hdb, hsb]

theorem parse_getD15 (db sb ctl : List Nat) (hdb : db.length = 7)
    (hsb : sb.length = 7) :
    (db ++ sb ++ ctl).getD 15 0 = ctl.getD 1 0 := by
  rw [List.getD_eq_getElem?_getD, List.getD_eq_getElem?_getD, List.append_assoc]
  rw [@List.getElem?_append_right _ db (sb ++ ctl) 15 (by omega)]
  rw [@List.getElem?_append_right _ sb ctl (15 - db.length) (by omega)]
  rw [hdb, hsb]

theorem parse_drop15 (db sb ctl : List Nat) (hdb : db.length = 7)
    (hsb : sb.length = 7) :
    (db ++ sb ++ ctl).drop 15 = ctl.drop 1 := by
  rw [List.append_assoc]
  have h1 : (15 : Nat) = (db ++ sb).length + 1 := by simp [hdb, hsb]
  rw [← List.append_assoc, h1, List.drop_append]

theorem parse_drop16 (db sb ctl : List Nat) (hdb : db.length = 7)
    (hsb : sb.length = 7) :
    (db ++ sb ++ ctl).drop 16 = ctl.drop 2 := by
  have h1 : (16 : Nat) = (db ++ sb).length + 2 := by simp [hdb, hsb]
  rw [h1, List.drop_append]

theorem parse_len (db sb ctl : List Nat) (hdb : db.length = 7)
    (hsb : sb.length = 7) :
    (db ++ sb ++ ctl).length = 14 + ctl.length := by
  simp only [List.length_append, hdb, hsb]

theorem Packet_parse_onebyte (db sb ctl : List Nat) (dst src : Addr)
    (hdb : db.length = 7) (hsb : sb.length = 7) (hc : ctl ≠ [])
    (hpd : Addr.parse db = some dst) (hps : Addr.parse sb = some src)
    (hcond : (!src.rbit_ext || (ctl.getD 0 0) &&& TYPE_MASK = 3) = true) :
    Packet.parse (db ++ sb ++ ctl) =
      parseBody dst src src.rbit_ext (ctl.getD 0 0)
        ((ctl.getD 0 0) &&& CONTROL_POLL = CONTROL_POLL)
        (((ctl.getD 0 0) >>> 5) &&& 7) (((ctl.getD 0 0) >>> 1) &&& 7) (ctl.drop 1) := by
  have h1 : (db ++ sb ++ ctl).take 7 = db := by
    rw [List.append_assoc]
    exact parse_take7 _ _ hdb
  have h2 : (db ++ sb ++ ctl).drop 7 = sb ++ ctl := by
    rw [List.append_assoc]
    exact parse_drop7 _ _ hdb
  have h3 : (sb ++ ctl).take 7 = sb := parse_take7 _ _ hsb
  have h4 := parse_getD14 db sb ctl hdb hsb
  have h5 := parse_drop15 db sb ctl hdb hsb
  have hlen := parse_len db sb ctl hdb hsb
  unfold Packet.parse
  rw [hlen, if_neg (by have := List.length_pos.mpr hc; omega)]
  rw [h1, hpd, h2, h3, hps]
  simp only [h4, h5]
  rw [hcond, if_pos rfl]

theorem Packet_parse_twobyte (db sb ctl : List Nat) (dst src : Addr)
    (hdb : db.length = 7) (hsb : sb.length = 7) (hc : ctl ≠ [])
    (hpd : Addr.parse db = some dst) (hps : Addr.parse sb = some src)
    (hcond : (!src.rbit_ext || (ctl.getD 0 0) &&& TYPE_MASK = 3) = false)
    (hlen2 : 2 ≤ ctl.length) :
    Packet.parse (db ++ sb ++ ctl) =
      parseBody dst src src.rbit_ext (ctl.getD 0 0)
        ((ctl.getD 1 0) &&& 1 = 1) (((ctl.getD 1 0) >>> 1) &&& 127)
        (((ctl.getD 0 0) >>> 1) &&& 127) (ctl.drop 2) := by
  have h1 : (db ++ sb ++ ctl).take 7 = db := by
    rw [List.append_assoc]
    exact parse_take7 _ _ hdb
  have h2 : (db ++ sb ++ ctl).drop 7 = sb ++ ctl := by
    rw [List.append_assoc]
    exact parse_drop7 _ _ hdb
  have h3 : (sb ++ ctl).take 7 = sb := parse_take7 _ _ hsb
  have h4 := parse_getD14 db sb ctl hdb hsb
  have h5 := parse_getD15 db sb ctl hdb hsb
  have h6 := parse_drop16 db sb ctl hdb hsb
  have hlen := parse_len db sb ctl hdb hsb
  unfold Packet.parse
  rw [hlen, if_neg (by omega)]
  rw [h1, hpd, h2, h3, hps]
  simp only [h4, h5, h6, hlen]
  rw [hcond, if_neg (by simp), if_neg (by omega)]

theorem parseBody_iframe (dst src : Addr) (ext : Bool) (c1 : Nat) (poll : Bool)
    (nr ns pid : Nat) (payload : List Nat)
    (ht : c1 &&& TYPE_MASK = 0 ∨ c1 &&& TYPE_MASK = 2) :
    parseBody dst src ext c1 poll nr ns (pid :: payload) =
      ParseResult.ok { src := src, dst := dst, command_response := dst.highbit,
                       command_response_la := src.highbit, rr_dist1 := dst.rbit_ext,
                       rr_extseq := ext, digipeater := [],
                       packet_type := .Iframe ⟨nr, ns, poll, NO_L3, payload⟩ } := by
  unfold parseBody
  rw [if_pos ht]

theorem parseBody_rr (dst src : Addr) (ext : Bool) (c1 : Nat) (poll : Bool)
    (nr ns : Nat) (rest : List Nat)
    (ht : c1 &&& TYPE_MASK = 1) (hc : c1 &&& 0x0F = CONTROL_RR) :
    parseBody dst src ext c1 poll nr ns rest =
      ParseResult.ok { src := src, dst := dst, command_response := dst.highbit,
                       command_response_la := src.highbit, rr_dist1 := dst.rbit_ext,
                       rr_extseq := ext, digipeater := [],
                       packet_type := .Rr poll nr } := by
  unfold parseBody
  rw [ht, hc]
  rfl

theorem parseBody_rnr (dst src : Addr) (ext : Bool) (c1 : Nat) (poll : Bool)
    (nr ns : Nat) (rest : List Nat)
    (ht : c1 &&& TYPE_MASK = 1) (hc : c1 &&& 0x0F = CONTROL_RNR) :
    parseBody dst src ext c1 poll nr ns rest =
      ParseResult.ok { src := src, dst := dst, command_response := dst.highbit,
                       command_response_la := src.highbit, rr_dist1 := dst.rbit_ext,
                       rr_extseq := ext, digipeater := [],
                       packet_type := .Rnr poll nr } := by
  unfold parseBody
  rw [ht, hc]
  rfl

theorem parseBody_rej (dst src : Addr) (ext : Bool) (c1 : Nat) (poll : Bool)
    (nr ns : Nat) (rest : List Nat)
    (ht : c1 &&& TYPE_MASK = 1) (hc : c1 &&& 0x0F = CONTROL_REJ) :
    parseBody dst src ext c1 poll nr ns rest =
      ParseResult.ok { src := src, dst := dst, command_response := dst.highbit,
                       command_response_la := src.highbit, rr_dist1 := dst.rbit_ext,
                       rr_extseq := ext, digipeater := [],
                       packet_type := .Rej poll nr } := by
  unfold parseBody
  rw [ht, hc]
  rfl

theorem parseBody_srej (dst src : Addr) (ext : Bool) (c1 : Nat) (poll : Bool)
    (nr ns : Nat) (rest : List Nat)
    (ht : c1 &&& TYPE_MASK = 1) (hc : c1 &&& 0x0F = CONTROL_SREJ) :
    parseBody dst src ext c1 poll nr ns rest =
      ParseResult.ok { src := src, dst := dst, command_response := dst.highbit,
                       command_response_la := src.highbit, rr_dist1 := dst.rbit_ext,
                       rr_extseq := ext, digipeater := [],
                       packet_type := .Srej poll nr } := by
  unfold parseBody
  rw [ht, hc]
  rfl

theorem parseBody_sabme (dst src : Addr) (ext : Bool) (c1 : Nat) (poll : Bool)
    (nr ns : Nat) (rest : List Nat)
    (ht : c1 &&& TYPE_MASK = 3) (hc : c1 &&& 0xEF = CONTROL_SABME) :
    parseBody dst src ext c1 poll nr ns rest =
      ParseResult.ok { src := src, dst := dst, command_response := dst.highbit,
                       command_response_la := src.highbit, rr_dist1 := dst.rbit_ext,
                       rr_extseq := ext, digipeater := [],
                       packet_type := .Sabme poll } := by
  unfold parseBody
  rw [ht, hc]
  rfl

theorem parseBody_sabm (dst src : Addr) (ext : Bool) (c1 : Nat) (poll : Bool)
    (nr ns : Nat) (rest : List Nat)
    (ht : c1 &&& TYPE_MASK = 3) (hc : c1 &&& 0xEF = CONTROL_SABM) :
    parseBody dst src ext c1 poll nr ns rest =
      ParseResult.ok { src := src, dst := dst, command_response := dst.highbit,
                       command_response_la := src.highbit, rr_dist1 := dst.rbit_ext,
                       rr_extseq := ext, digipeater := [],
                       packet_type := .Sabm poll } := by
  unfold parseBody
  rw [ht, hc]
  rfl

theorem parseBody_ua (dst src : Addr) (ext : Bool) (c1 : Nat) (poll : Bool)
    (nr ns : Nat) (rest : List Nat)
    (ht : c1 &&& TYPE_MASK = 3) (hc : c1 &&& 0xEF = CONTROL_UA) :
    parseBody dst src ext c1 poll nr ns rest =
      ParseResult.ok { src := src, dst := dst, command_response := dst.highbit,
                       command_response_la := src.highbit, rr_dist1 := dst.rbit_ext,
                       rr_extseq := ext, digipeater := [],
                       packet_type := .Ua poll } := by
  unfold parseBody
  rw [ht, hc]
  rfl

theorem parseBody_disc (dst src : Addr) (ext : Bool) (c1 : Nat) (poll : Bool)
    (nr ns : Nat) (rest : List Nat)
    (ht : c1 &&& TYPE_MASK = 3) (hc : c1 &&& 0xEF = CONTROL_DISC) :
    parseBody dst src ext c1 poll nr ns rest =
      ParseResult.ok { src := src, dst := dst, command_response := dst.highbit,
                       command_response_la := src.highbit, rr_dist1 := dst.rbit_ext,
                       rr_extseq := ext, digipeater := [],
                       packet_type := .Disc poll } := by
  unfold parseBody
  rw [ht, hc]
  rfl

theorem parseBody_dm (dst src : Addr) (ext : Bool) (c1 : Nat) (poll : Bool)
    (nr ns : Nat) (rest : List Nat)
    (ht : c1 &&& TYPE_MASK = 3) (hc : c1 &&& 0xEF = CONTROL_DM) :
    parseBody dst src ext c1 poll nr ns rest =
      ParseResult.ok { src := src, dst := dst, command_response := dst.highbit,
                       command_response_la := src.highbit, rr_dist1 := dst.rbit_ext,
                       rr_extseq := ext, digipeater := [],
                       packet_type := .Dm poll } := by
  unfold parseBody
  rw [ht, hc]
  rfl

theorem parseBody_frmr (dst src : Addr) (ext : Bool) (c1 : Nat) (poll : Bool)
    (nr ns : Nat) (rest : List Nat)
    (ht : c1 &&& TYPE_MASK = 3) (hc : c1 &&& 0xEF = CONTROL_FRMR) :
    parseBody dst src ext c1 poll nr ns rest =
      ParseResult.ok { src := src, dst := dst, command_response := dst.highbit,
                       command_response_la := src.highbit, rr_dist1 := dst.rbit_ext,
                       rr_extseq := ext, digipeater := [],
                       packet_type := .Frmr poll } := by
  unfold parseBody
  rw [ht, hc]
  rfl

theorem parseBody_ui (dst src : Addr) (ext : Bool) (c1 : Nat) (poll : Bool)
    (nr ns : Nat) (rest : List Nat)
    (ht : c1 &&& TYPE_MASK = 3) (hc : c1 &&& 0xEF = CONTROL_UI) :
    parseBody dst src ext c1 poll nr ns rest =
      ParseResult.ok { src := src, dst := dst, command_response := dst.highbit,
                       command_response_la := src.highbit, rr_dist1 := dst.rbit_ext,
                       rr_extseq := ext, digipeater := [],
                       packet_type := .Ui poll rest } := by
  unfold parseBody
  rw [ht, hc]
  rfl

theorem parseBody_xid (dst src : Addr) (ext : Bool) (c1 : Nat) (poll : Bool)
    (nr ns : Nat) (rest : List Nat)
    (ht : c1 &&& TYPE_MASK = 3) (hc : c1 &&& 0xEF = CONTROL_XID) :
    parseBody dst src ext c1 poll nr ns rest =
      ParseResult.ok { src := src, dst := dst, command_response := dst.highbit,
                       command_response_la := src.highbit, rr_dist1 := dst.rbit_ext,
                       rr_extseq := ext, digipeater := [],
                       packet_type := .Xid poll } := by
  unfold parseBody
  rw [ht, hc]
  rfl

theorem parseBody_test (dst src : Addr) (ext : Bool) (c1 : Nat) (poll : Bool)
    (nr ns : Nat) (rest : List Nat)
    (ht : c1 &&& TYPE_MASK = 3) (hc : c1 &&& 0xEF = CONTROL_TEST) :
    parseBody dst src ext c1 poll nr ns rest =
      ParseResult.ok { src := src, dst := dst, command_response := dst.highbit,
                       command_response_la := src.highbit, rr_dist1 := dst.rbit_ext,
                       rr_extseq := ext, digipeater := [],
                       packet_type := .Test poll rest } := by
  unfold parseBody
  rw [ht, hc]
  rfl



theorem addr_upd_dst (a : Addr) (hl : a.lowbit = false) (hd : a.rbit_dama = false) :
    ({ a with lowbit := false, highbit := a.highbit, rbit_ext := a.rbit_ext,
              rbit_dama := false } : Addr) = a := by
  cases a with
  | mk t re hb lo rd =>
    simp only at hl hd
    subst hl
    subst hd
    rfl

theorem addr_upd_src (a : Addr) (hl : a.lowbit = true) (hd : a.rbit_dama = false) :
    ({ a with lowbit := true, highbit := a.highbit, rbit_ext := a.rbit_ext,
              rbit_dama := false } : Addr) = a := by
  cases a with
  | mk t re hb lo rd =>
    simp only at hl hd
    subst hl
    subst hd
    rfl

theorem serialize_mk_frame (dst src : Addr) (pt : PacketType) (db sb : List Nat)
    (hdser : dst.serialize false dst.highbit dst.rbit_ext false = some db)
    (hsser : src.serialize true src.highbit src.rbit_ext false = some sb)
    (hne : dst.highbit ≠ src.highbit) :
    Packet.serialize { src := src, dst := dst, digipeater := [],
                       rr_extseq := src.rbit_ext, command_response := dst.highbit,
                       command_response_la := src.highbit, rr_dist1 := dst.rbit_ext,
                       packet_type := pt } src.rbit_ext =
      some (db ++ sb ++ pt.controlBytes src.rbit_ext) := by
  unfold Packet.serialize
  simp only [List.isEmpty_nil, hdser, hsser]
  rw [if_neg hne]

theorem u_ctl_facts : ∀ c ∈ [CONTROL_SABME, CONTROL_SABM, CONTROL_UA, CONTROL_DISC,
      CONTROL_DM, CONTROL_FRMR, CONTROL_UI, CONTROL_XID, CONTROL_TEST], ∀ s : Bool,
    (c ||| pollBit s) &&& TYPE_MASK = 3 ∧ (c ||| pollBit s) &&& 0xEF = c ∧
      decide ((c ||| pollBit s) &&& CONTROL_POLL = CONTROL_POLL) = s := by
  decide

theorem s8_facts : ∀ c ∈ [CONTROL_RR, CONTROL_RNR], ∀ nr ≤ 7, ∀ s : Bool,
    (c ||| pollBit s ||| (((nr <<< 5) % 256) &&& NR_MASK)) &&& TYPE_MASK = 1 ∧
    (c ||| pollBit s ||| (((nr <<< 5) % 256) &&& NR_MASK)) &&& 0x0F = c ∧
    decide ((c ||| pollBit s ||| (((nr <<< 5) % 256) &&& NR_MASK)) &&& CONTROL_POLL =
      CONTROL_POLL) = s ∧
    ((c ||| pollBit s ||| (((nr <<< 5) % 256) &&& NR_MASK)) >>> 5) &&& 7 = nr := by
  decide

theorem sp8_facts : ∀ c ∈ [CONTROL_REJ, CONTROL_SREJ], ∀ s : Bool,
    (c ||| pollBit s) &&& TYPE_MASK = 1 ∧ (c ||| pollBit s) &&& 0x0F = c ∧
    decide ((c ||| pollBit s) &&& CONTROL_POLL = CONTROL_POLL) = s ∧
    ((c ||| pollBit s) >>> 5) &&& 7 = 0 := by
  decide

theorem iframe8_facts : ∀ nr ≤ 7, ∀ ns ≤ 7, ∀ p : Bool,
    ((CONTROL_IFRAME ||| pollBit p ||| (((nr <<< 5) % 256) &&& 0xE0) |||
        (((ns <<< 1) % 256) &&& 0x0E)) &&& TYPE_MASK = 0 ∨
     (CONTROL_IFRAME ||| pollBit p ||| (((nr <<< 5) % 256) &&& 0xE0) |||
        (((ns <<< 1) % 256) &&& 0x0E)) &&& TYPE_MASK = 2) ∧
    decide ((CONTROL_IFRAME ||| pollBit p ||| (((nr <<< 5) % 256) &&& 0xE0) |||
        (((ns <<< 1) % 256) &&& 0x0E)) &&& CONTROL_POLL = CONTROL_POLL) = p ∧
    ((CONTROL_IFRAME ||| pollBit p ||| (((nr <<< 5) % 256) &&& 0xE0) |||
        (((ns <<< 1) % 256) &&& 0x0E)) >>> 5) &&& 7 = nr ∧
    ((CONTROL_IFRAME ||| pollBit p ||| (((nr <<< 5) % 256) &&& 0xE0) |||
        (((ns <<< 1) % 256) &&& 0x0E)) >>> 1) &&& 7 = ns := by
  decide

theorem c2_facts : ∀ nr ≤ 127, ∀ s : Bool,
    decide (((((nr <<< 1) % 256) &&& 0xFE) ||| (if s then 1 else 0)) &&& 1 = 1) = s ∧
    (((((nr <<< 1) % 256) &&& 0xFE) ||| (if s then 1 else 0)) >>> 1) &&& 127 = nr := by
  decide

theorem iext_c1_facts : ∀ ns ≤ 127,
    ((CONTROL_IFRAME ||| (((ns <<< 1) % 256) &&& 0xFE)) &&& TYPE_MASK = 0 ∨
     (CONTROL_IFRAME ||| (((ns <<< 1) % 256) &&& 0xFE)) &&& TYPE_MASK = 2) ∧
    decide ((CONTROL_IFRAME ||| (((ns <<< 1) % 256) &&& 0xFE)) &&& TYPE_MASK = 3) = false ∧
    ((CONTROL_IFRAME ||| (((ns <<< 1) % 256) &&& 0xFE)) >>> 1) &&& 127 = ns := by
  decide

theorem frame_roundtrip (dst src : Addr) (pt : PacketType)
    (hdv : validCall dst.t = true) (hd0 : afterDash dst.t ≠ some ['0'])
    (hsv : validCall src.t = true) (hs0 : afterDash src.t ≠ some ['0'])
    (hdl : dst.lowbit = false) (hdd : dst.rbit_dama = false)
    (hsl : src.lowbit = true) (hsd : src.rbit_dama = false)
    (hne : dst.highbit ≠ src.highbit)
    (hok : CtlOk src.rbit_ext pt) :
    ∃ bs, Packet.serialize { src := src, dst := dst, digipeater := [],
                             rr_extseq := src.rbit_ext, command_response := dst.highbit,
                             command_response_la := src.highbit, rr_dist1 := dst.rbit_ext,
                             packet_type := pt } src.rbit_ext = some bs ∧
      Packet.parse bs = ParseResult.ok { src := src, dst := dst, digipeater := [],
                                         rr_extseq := src.rbit_ext, command_response := dst.highbit,
                                         command_response_la := src.highbit, rr_dist1 := dst.rbit_ext,
                                         packet_type := pt } := by
  obtain ⟨db, hdser, hdblen, hdparse⟩ :=
    addr_serialize_parse dst false dst.highbit dst.rbit_ext false hdv hd0
  obtain ⟨sb, hsser, hsblen, hsparse⟩ :=
    addr_serialize_parse src true src.highbit src.rbit_ext false hsv hs0
  rw [addr_upd_dst dst hdl hdd] at hdparse
  rw [addr_upd_src src hsl hsd] at hsparse
  refine ⟨db ++ sb ++ pt.controlBytes src.rbit_ext,
    serialize_mk_frame dst src pt db sb hdser hsser hne, ?_⟩
  cases pt with
  | Sabm s =>
    have hx : src.rbit_ext = false := hok
    obtain ⟨ht, hcm, hpoll⟩ := u_ctl_facts CONTROL_SABM (by simp) s
    rw [hx]
    rw [show PacketType.controlBytes (.Sabm s) false = [CONTROL_SABM ||| pollBit s] from rfl]
    rw [Packet_parse_onebyte db sb _ dst src hdblen hsblen (by simp) hdparse hsparse
      (by simp [hx])]
    rw [hx]
    simp only [List.getD_cons_zero, List.drop_succ_cons, List.drop_nil]
    rw [hpoll]
    exact parseBody_sabm dst src false _ s _ _ _ ht hcm
  | Sabme s =>
    obtain ⟨ht, hcm, hpoll⟩ := u_ctl_facts CONTROL_SABME (by simp) s
    rw [show PacketType.controlBytes (.Sabme s) src.rbit_ext = [CONTROL_SABME ||| pollBit s] from rfl]
    rw [Packet_parse_onebyte db sb _ dst src hdblen hsblen (by simp) hdparse hsparse
      (by simp [List.getD_cons_zero, ht])]
    simp only [List.getD_cons_zero, List.drop_succ_cons, List.drop_nil]
    rw [hpoll]
    exact parseBody_sabme dst src src.rbit_ext _ s _ _ _ ht hcm
  | Ua s =>
    obtain ⟨ht, hcm, hpoll⟩ := u_ctl_facts CONTROL_UA (by simp) s
    rw [show PacketType.controlBytes (.Ua s) src.rbit_ext = [CONTROL_UA ||| pollBit s] from rfl]
    rw [Packet_parse_onebyte db sb _ dst src hdblen hsblen (by simp) hdparse hsparse
      (by simp [List.getD_cons_zero, ht])]
    simp only [List.getD_cons_zero, List.drop_succ_cons, List.drop_nil]
    rw [hpoll]
    exact parseBody_ua dst src src.rbit_ext _ s _ _ _ ht hcm
  | Dm s =>
    obtain ⟨ht, hcm, hpoll⟩ := u_ctl_facts CONTROL_DM (by simp) s
    rw [show PacketType.controlBytes (.Dm s) src.rbit_ext = [CONTROL_DM ||| pollBit s] from rfl]
    rw [Packet_parse_onebyte db sb _ dst src hdblen hsblen (by simp) hdparse hsparse
      (by simp [List.getD_cons_zero, ht])]
    simp only [List.getD_cons_zero, List.drop_succ_cons, List.drop_nil]
    rw [hpoll]
    exact parseBody_dm dst src src.rbit_ext _ s _ _ _ ht hcm
  | Disc s =>
    obtain ⟨ht, hcm, hpoll⟩ := u_ctl_facts CONTROL_DISC (by simp) s
    rw [show PacketType.controlBytes (.Disc s) src.rbit_ext = [CONTROL_DISC ||| pollBit s] from rfl]
    rw [Packet_parse_onebyte db sb _ dst src hdblen hsblen (by simp) hdparse hsparse
      (by simp [List.getD_cons_zero, ht])]
    simp only [List.getD_cons_zero, List.drop_succ_cons, List.drop_nil]
    rw [hpoll]
    exact parseBody_disc dst src src.rbit_ext _ s _ _ _ ht hcm
  | Iframe i =>
    obtain ⟨inr, ins, ip, ipid, ipay⟩ := i
    obtain ⟨hpid, hbounds⟩ := hok
    have hpid2 : ipid = NO_L3 := hpid
    subst hpid2
    cases hx : src.rbit_ext with
    | false =>
      rw [hx] at hbounds
      have hb : inr ≤ 7 ∧ ins ≤ 7 := hbounds
      obtain ⟨ht, hpoll, hnrx, hnsx⟩ := iframe8_facts inr hb.1 ins hb.2 ip
      rw [show PacketType.controlBytes (.Iframe ⟨inr, ins, ip, NO_L3, ipay⟩) false =
          (CONTROL_IFRAME ||| pollBit ip ||| (((inr <<< 5) % 256) &&& 0xE0) |||
            (((ins <<< 1) % 256) &&& 0x0E)) :: NO_L3 :: ipay from rfl]
      rw [Packet_parse_onebyte db sb _ dst src hdblen hsblen (by simp) hdparse hsparse
        (by simp [hx])]
      rw [hx]
      simp only [List.getD_cons_zero, List.drop_succ_cons, List.drop_zero]
      rw [hpoll, hnrx, hnsx]
      exact parseBody_iframe dst src false _ ip inr ins NO_L3 ipay ht
    | true =>
      rw [hx] at hbounds
      have hb : inr ≤ 127 ∧ ins ≤ 127 := hbounds
      obtain ⟨hor, hf3, hnsx⟩ := iext_c1_facts ins hb.2
      obtain ⟨hpoll, hnrx⟩ := c2_facts inr hb.1 ip
      rw [show PacketType.controlBytes (.Iframe ⟨inr, ins, ip, NO_L3, ipay⟩) true =
          (CONTROL_IFRAME ||| (((ins <<< 1) % 256) &&& 0xFE)) ::
            ((((inr <<< 1) % 256) &&& 0xFE) ||| (if ip then 1 else 0)) ::
            NO_L3 :: ipay from rfl]
      rw [Packet_parse_twobyte db sb _ dst src hdblen hsblen (by simp) hdparse hsparse
        (by rw [hx]; simp only [List.getD_cons_zero, Bool.not_true, Bool.false_or]; exact hf3)
        (by simp)]
      rw [hx]
      simp only [List.getD_cons_zero, List.getD_cons_succ, List.drop_succ_cons,
        List.drop_zero]
      rw [hpoll, hnrx, hnsx]
      exact parseBody_iframe dst src true _ ip inr ins NO_L3 ipay hor
  | Rr s nr =>
    cases hx : src.rbit_ext with
    | false =>
      rw [hx] at hok
      have hnr : nr ≤ 7 := hok
      obtain ⟨ht, hcm, hpoll, hnrx⟩ := s8_facts CONTROL_RR (by simp) nr hnr s
      rw [show PacketType.controlBytes (.Rr s nr) false =
          [CONTROL_RR ||| pollBit s ||| (((nr <<< 5) % 256) &&& NR_MASK)] from rfl]
      rw [Packet_parse_onebyte db sb _ dst src hdblen hsblen (by simp) hdparse hsparse
        (by simp [hx])]
      rw [hx]
      simp only [List.getD_cons_zero, List.drop_succ_cons, List.drop_nil]
      rw [hpoll, hnrx]
      exact parseBody_rr dst src false _ s nr _ _ ht hcm
    | true =>
      rw [hx] at hok
      have hnr : nr ≤ 127 := hok
      obtain ⟨hpoll, hnrx⟩ := c2_facts nr hnr s
      rw [show PacketType.controlBytes (.Rr s nr) true =
          [CONTROL_RR, (((nr <<< 1) % 256) &&& 0xFE) ||| (if s then 1 else 0)] from rfl]
      have hcond : (!src.rbit_ext ||
          (([CONTROL_RR, (((nr <<< 1) % 256) &&& 0xFE) ||| (if s then 1 else 0)].getD 0 0) &&&
            TYPE_MASK = 3)) = false := by
        rw [hx]
        simp only [List.getD_cons_zero, Bool.not_true, Bool.false_or,
          decide_eq_false_iff_not]
        decide
      rw [Packet_parse_twobyte db sb
        [CONTROL_RR, (((nr <<< 1) % 256) &&& 0xFE) ||| (if s then 1 else 0)]
        dst src hdblen hsblen (by simp) hdparse hsparse hcond (by simp)]
      rw [hx]
      simp only [List.getD_cons_zero, List.getD_cons_succ, List.drop_succ_cons,
        List.drop_zero, List.drop_nil]
      rw [hpoll, hnrx]
      exact parseBody_rr dst src true CONTROL_RR s nr _ _ (by decide) (by decide)
  | Rnr s nr =>
    cases hx : src.rbit_ext with
    | false =>
      rw [hx] at hok
      have hnr : nr ≤ 7 := hok
      obtain ⟨ht, hcm, hpoll, hnrx⟩ := s8_facts CONTROL_RNR (by simp) nr hnr s
      rw [show PacketType.controlBytes (.Rnr s nr) false =
          [CONTROL_RNR ||| pollBit s ||| (((nr <<< 5) % 256) &&& NR_MASK)] from rfl]
      rw [Packet_parse_onebyte db sb _ dst src hdblen hsblen (by simp) hdparse hsparse
        (by simp [hx])]
      rw [hx]
      simp only [List.getD_cons_zero, List.drop_succ_cons, List.drop_nil]
      rw [hpoll, hnrx]
      exact parseBody_rnr dst src false _ s nr _ _ ht hcm
    | true =>
      rw [hx] at hok
      have hnr : nr ≤ 127 := hok
      obtain ⟨hpoll, hnrx⟩ := c2_facts nr hnr s
      rw [show PacketType.controlBytes (.Rnr s nr) true =
          [CONTROL_RNR, (((nr <<< 1) % 256) &&& 0xFE) ||| (if s then 1 else 0)] from rfl]
      have hcond : (!src.rbit_ext ||
          (([CONTROL_RNR, (((nr <<< 1) % 256) &&& 0xFE) ||| (if s then 1 else 0)].getD 0 0) &&&
            TYPE_MASK = 3)) = false := by
        rw [hx]
        simp only [List.getD_cons_zero, Bool.not_true, Bool.false_or,
          decide_eq_false_iff_not]
        decide
      rw [Packet_parse_twobyte db sb
        [CONTROL_RNR, (((nr <<< 1) % 256) &&& 0xFE) ||| (if s then 1 else 0)]
        dst src hdblen hsblen (by simp) hdparse hsparse hcond (by simp)]
      rw [hx]
      simp only [List.getD_cons_zero, List.getD_cons_succ, List.drop_succ_cons,
        List.drop_zero, List.drop_nil]
      rw [hpoll, hnrx]
      exact parseBody_rnr dst src true CONTROL_RNR s nr _ _ (by decide) (by decide)
  | Rej s nr =>
    cases hx : src.rbit_ext with
    | false =>
      rw [hx] at hok
      have hnr : nr = 0 := hok
      subst hnr
      obtain ⟨ht, hcm, hpoll, hnrx⟩ := sp8_facts CONTROL_REJ (by simp) s
      rw [show PacketType.controlBytes (.Rej s 0) false =
          [CONTROL_REJ ||| pollBit s] from rfl]
      rw [Packet_parse_onebyte db sb _ dst src hdblen hsblen (by simp) hdparse hsparse
        (by simp [hx])]
      rw [hx]
      simp only [List.getD_cons_zero, List.drop_succ_cons, List.drop_nil]
      rw [hpoll, hnrx]
      exact parseBody_rej dst src false _ s 0 _ _ ht hcm
    | true =>
      rw [hx] at hok
      have hnr : nr ≤ 127 := hok
      obtain ⟨hpoll, hnrx⟩ := c2_facts nr hnr s
      rw [show PacketType.controlBytes (.Rej s nr) true =
          [CONTROL_REJ, (((nr <<< 1) % 256) &&& 0xFE) ||| (if s then 1 else 0)] from rfl]
      have hcond : (!src.rbit_ext ||
          (([CONTROL_REJ, (((nr <<< 1) % 256) &&& 0xFE) ||| (if s then 1 else 0)].getD 0 0) &&&
            TYPE_MASK = 3)) = false := by
        rw [hx]
        simp only [List.getD_cons_zero, Bool.not_true, Bool.false_or,
          decide_eq_false_iff_not]
        decide
      rw [Packet_parse_twobyte db sb
        [CONTROL_REJ, (((nr <<< 1) % 256) &&& 0xFE) ||| (if s then 1 else 0)]
        dst src hdblen hsblen (by simp) hdparse hsparse hcond (by simp)]
      rw [hx]
      simp only [List.getD_cons_zero, List.getD_cons_succ, List.drop_succ_cons,
        List.drop_zero, List.drop_nil]
      rw [hpoll, hnrx]
      exact parseBody_rej dst src true CONTROL_REJ s nr _ _ (by decide) (by decide)
  | Srej s nr =>
    cases hx : src.rbit_ext with
    | false =>
      rw [hx] at hok
      have hnr : nr = 0 := hok
      subst hnr
      obtain ⟨ht, hcm, hpoll, hnrx⟩ := sp8_facts CONTROL_SREJ (by simp) s
      rw [show PacketType.controlBytes (.Srej s 0) false =
          [CONTROL_SREJ ||| pollBit s] from rfl]
      rw [Packet_parse_onebyte db sb _ dst src hdblen hsblen (by simp) hdparse hsparse
        (by simp [hx])]
      rw [hx]
      simp only [List.getD_cons_zero, List.drop_succ_cons, List.drop_nil]
      rw [hpoll, hnrx]
      exact parseBody_srej dst src false _ s 0 _ _ ht hcm
    | true =>
      rw [hx] at hok
      have hnr : nr ≤ 127 := hok
      obtain ⟨hpoll, hnrx⟩ := c2_facts nr hnr s
      rw [show PacketType.controlBytes (.Srej s nr) true =
          [CONTROL_SREJ, (((nr <<< 1) % 256) &&& 0xFE) ||| (if s then 1 else 0)] from rfl]
      have hcond : (!src.rbit_ext ||
          (([CONTROL_SREJ, (((nr <<< 1) % 256) &&& 0xFE) ||| (if s then 1 else 0)].getD 0 0) &&&
            TYPE_MASK = 3)) = false := by
        rw [hx]
        simp only [List.getD_cons_zero, Bool.not_true, Bool.false_or,
          decide_eq_false_iff_not]
        decide
      rw [Packet_parse_twobyte db sb
        [CONTROL_SREJ, (((nr <<< 1) % 256) &&& 0xFE) ||| (if s then 1 else 0)]
        dst src hdblen hsblen (by simp) hdparse hsparse hcond (by simp)]
      rw [hx]
      simp only [List.getD_cons_zero, List.getD_cons_succ, List.drop_succ_cons,
        List.drop_zero, List.drop_nil]
      rw [hpoll, hnrx]
      exact parseBody_srej dst src true CONTROL_SREJ s nr _ _ (by decide) (by decide)
  | Frmr s =>
    obtain ⟨ht, hcm, hpoll⟩ := u_ctl_facts CONTROL_FRMR (by simp) s
    rw [show PacketType.controlBytes (.Frmr s) src.rbit_ext = [CONTROL_FRMR ||| pollBit s] from rfl]
    rw [Packet_parse_onebyte db sb _ dst src hdblen hsblen (by simp) hdparse hsparse
      (by simp [List.getD_cons_zero, ht])]
    simp only [List.getD_cons_zero, List.drop_succ_cons, List.drop_nil]
    rw [hpoll]
    exact parseBody_frmr dst src src.rbit_ext _ s _ _ _ ht hcm
  | Xid s =>
    obtain ⟨ht, hcm, hpoll⟩ := u_ctl_facts CONTROL_XID (by simp) s
    rw [show PacketType.controlBytes (.Xid s) src.rbit_ext = [CONTROL_XID ||| pollBit s] from rfl]
    rw [Packet_parse_onebyte db sb _ dst src hdblen hsblen (by simp) hdparse hsparse
      (by simp [List.getD_cons_zero, ht])]
    simp only [List.getD_cons_zero, List.drop_succ_cons, List.drop_nil]
    rw [hpoll]
    exact parseBody_xid dst src src.rbit_ext _ s _ _ _ ht hcm
  | Ui s payload =>
    have hp : payload = [] := hok
    subst hp
    obtain ⟨ht, hcm, hpoll⟩ := u_ctl_facts CONTROL_UI (by simp) s
    rw [show PacketType.controlBytes (.Ui s []) src.rbit_ext = [CONTROL_UI ||| pollBit s] from rfl]
    rw [Packet_parse_onebyte db sb _ dst src hdblen hsblen (by simp) hdparse hsparse
      (by simp [List.getD_cons_zero, ht])]
    simp only [List.getD_cons_zero, List.drop_succ_cons, List.drop_nil]
    rw [hpoll]
    exact parseBody_ui dst src src.rbit_ext _ s _ _ _ ht hcm
  | Test s payload =>
    obtain ⟨ht, hcm, hpoll⟩ := u_ctl_facts CONTROL_TEST (by simp) s
    rw [show PacketType.controlBytes (.Test s payload) src.rbit_ext =
        (CONTROL_TEST ||| pollBit s) :: payload from rfl]
    rw [Packet_parse_onebyte db sb _ dst src hdblen hsblen (by simp) hdparse hsparse
      (by simp [List.getD_cons_zero, ht])]
    simp only [List.getD_cons_zero, List.drop_succ_cons, List.drop_zero]
    rw [hpoll]
    exact parseBody_test dst src src.rbit_ext _ s _ _ payload ht hcm



theorem parseBody_iframe_nil (dst src : Addr) (ext : Bool) (c1 : Nat) (poll : Bool)
    (nr ns : Nat) (ht : c1 &&& TYPE_MASK = 0 ∨ c1 &&& TYPE_MASK = 2) :
    parseBody dst src ext c1 poll nr ns [] = ParseResult.panicked := by
  unfold parseBody
  rw [if_pos ht]

theorem parseBody_s_panicked (dst src : Addr) (ext : Bool) (c1 : Nat) (poll : Bool)
    (nr ns : Nat) (rest : List Nat) (ht : c1 &&& TYPE_MASK = 1)
    (h1 : c1 &&& 0x0F ≠ CONTROL_RR) (h2 : c1 &&& 0x0F ≠ CONTROL_RNR)
    (h3 : c1 &&& 0x0F ≠ CONTROL_REJ) (h4 : c1 &&& 0x0F ≠ CONTROL_SREJ) :
    parseBody dst src ext c1 poll nr ns rest = ParseResult.panicked := by
  unfold parseBody
  rw [ht]
  rw [if_neg (by decide : ¬((1 : Nat) = 0 ∨ (1 : Nat) = 2)),
    if_pos (by decide : (1 : Nat) = 1), if_neg h1, if_neg h2, if_neg h3, if_neg h4]

theorem parseBody_u_panicked (dst src : Addr) (ext : Bool) (c1 : Nat) (poll : Bool)
    (nr ns : Nat) (rest : List Nat) (ht : c1 &&& TYPE_MASK = 3)
    (h1 : c1 &&& 0xEF ≠ CONTROL_SABME) (h2 : c1 &&& 0xEF ≠ CONTROL_SABM)
    (h3 : c1 &&& 0xEF ≠ CONTROL_UA) (h4 : c1 &&& 0xEF ≠ CONTROL_DISC)
    (h5 : c1 &&& 0xEF ≠ CONTROL_DM) (h6 : c1 &&& 0xEF ≠ CONTROL_FRMR)
    (h7 : c1 &&& 0xEF ≠ CONTROL_UI) (h8 : c1 &&& 0xEF ≠ CONTROL_XID)
    (h9 : c1 &&& 0xEF ≠ CONTROL_TEST) :
    parseBody dst src ext c1 poll nr ns rest = ParseResult.panicked := by
  unfold parseBody
  rw [ht]
  rw [if_neg (by decide : ¬((3 : Nat) = 0 ∨ (3 : Nat) = 2)),
    if_neg (by decide : ¬((3 : Nat) = 1)), if_pos (by decide : (3 : Nat) = 3),
    if_neg h1, if_neg h2, if_neg h3, if_neg h4, if_neg h5, if_neg h6, if_neg h7,
    if_neg h8, if_neg h9]

/-- Claim C2 amended: a packet returned by a successful Packet::parse survives
Packet::serialize (with ext equal to its rr_extseq) followed by Packet::parse,
provided the serializer's assert precondition holds (command_response differs
from command_response_la), neither address text carries the unserializable -0
SSID suffix, the four header-encoded address bits have the values the encoding
fixes (dst low bit clear and DAMA clear, src last-address bit set and DAMA
clear), and the packet is none of the lossy shapes listed in CtlExcl (mod-8
REJ or SREJ with nonzero N(R), SABM over a mod-128 link, UI with payload). -/
theorem claim_C2_amended (bytes : List Nat) (p : Packet)
    (hp : Packet.parse bytes = ParseResult.ok p)
    (hne : p.command_response ≠ p.command_response_la)
    (hd0 : afterDash p.dst.t ≠ some ['0']) (hs0 : afterDash p.src.t ≠ some ['0'])
    (hdl : p.dst.lowbit = false) (hdd : p.dst.rbit_dama = false)
    (hsl : p.src.lowbit = true) (hsd : p.src.rbit_dama = false)
    (hty : CtlExcl p) :
    ∃ bs, Packet.serialize p p.rr_extseq = some bs ∧
      Packet.parse bs = ParseResult.ok p := by
  unfold Packet.parse at hp
  split at hp
  · simp at hp
  · split at hp
    · next dst hsrc heq heq2 =>
      have hdv := Addr_parse_validCall heq
      have hsv := Addr_parse_validCall heq2
      have htle : bytes.getD 14 0 &&& TYPE_MASK ≤ 3 := Nat.and_le_right
      dsimp only [] at hp
      split at hp
      · next hcond =>
        by_cases ht3 : bytes.getD 14 0 &&& TYPE_MASK = 3
        · by_cases hu1 : bytes.getD 14 0 &&& 0xEF = CONTROL_SABME
          · rw [parseBody_sabme dst hsrc _ _ _ _ _ _ ht3 hu1] at hp
            injection hp with hp2
            subst hp2
            exact frame_roundtrip dst hsrc _ hdv hd0 hsv hs0 hdl hdd hsl hsd hne trivial
          · by_cases hu2 : bytes.getD 14 0 &&& 0xEF = CONTROL_SABM
            · rw [parseBody_sabm dst hsrc _ _ _ _ _ _ ht3 hu2] at hp
              injection hp with hp2
              subst hp2
              exact frame_roundtrip dst hsrc _ hdv hd0 hsv hs0 hdl hdd hsl hsd hne hty
            · by_cases hu3 : bytes.getD 14 0 &&& 0xEF = CONTROL_UA
              · rw [parseBody_ua dst hsrc _ _ _ _ _ _ ht3 hu3] at hp
                injection hp with hp2
                subst hp2
                exact frame_roundtrip dst hsrc _ hdv hd0 hsv hs0 hdl hdd hsl hsd hne trivial
              · by_cases hu4 : bytes.getD 14 0 &&& 0xEF = CONTROL_DISC
                · rw [parseBody_disc dst hsrc _ _ _ _ _ _ ht3 hu4] at hp
                  injection hp with hp2
                  subst hp2
                  exact frame_roundtrip dst hsrc _ hdv hd0 hsv hs0 hdl hdd hsl hsd hne trivial
                · by_cases hu5 : bytes.getD 14 0 &&& 0xEF = CONTROL_DM
                  · rw [parseBody_dm dst hsrc _ _ _ _ _ _ ht3 hu5] at hp
                    injection hp with hp2
                    subst hp2
                    exact frame_roundtrip dst hsrc _ hdv hd0 hsv hs0 hdl hdd hsl hsd hne trivial
                  · by_cases hu6 : bytes.getD 14 0 &&& 0xEF = CONTROL_FRMR
                    · rw [parseBody_frmr dst hsrc _ _ _ _ _ _ ht3 hu6] at hp
                      injection hp with hp2
                      subst hp2
                      exact frame_roundtrip dst hsrc _ hdv hd0 hsv hs0 hdl hdd hsl hsd hne trivial
                    · by_cases hu7 : bytes.getD 14 0 &&& 0xEF = CONTROL_UI
                      · rw [parseBody_ui dst hsrc _ _ _ _ _ _ ht3 hu7] at hp
                        injection hp with hp2
                        subst hp2
                        have hre : bytes.drop 15 = [] := hty
                        rw [hre]
                        exact frame_roundtrip dst hsrc _ hdv hd0 hsv hs0 hdl hdd hsl hsd hne rfl
                      · by_cases hu8 : bytes.getD 14 0 &&& 0xEF = CONTROL_XID
                        · rw [parseBody_xid dst hsrc _ _ _ _ _ _ ht3 hu8] at hp
                          injection hp with hp2
                          subst hp2
                          exact frame_roundtrip dst hsrc _ hdv hd0 hsv hs0 hdl hdd hsl hsd hne trivial
                        · by_cases hu9 : bytes.getD 14 0 &&& 0xEF = CONTROL_TEST
                          · rw [parseBody_test dst hsrc _ _ _ _ _ _ ht3 hu9] at hp
                            injection hp with hp2
                            subst hp2
                            exact frame_roundtrip dst hsrc _ hdv hd0 hsv hs0 hdl hdd hsl hsd hne trivial
                          · rw [parseBody_u_panicked dst hsrc _ _ _ _ _ _ ht3 hu1 hu2 hu3 hu4 hu5 hu6 hu7 hu8 hu9] at hp
                            simp at hp
        · have hx : hsrc.rbit_ext = false := by
            cases hb : hsrc.rbit_ext
            · rfl
            · rw [hb] at hcond
              simp only [Bool.not_true, Bool.false_or, decide_eq_true_eq] at hcond
              exact absurd hcond ht3
          by_cases ht01 : bytes.getD 14 0 &&& TYPE_MASK = 0 ∨ bytes.getD 14 0 &&& TYPE_MASK = 2
          · cases hrest : bytes.drop 15 with
            | nil =>
              rw [hrest, parseBody_iframe_nil dst hsrc _ _ _ _ _ ht01] at hp
              simp at hp
            | cons pid payload =>
              rw [hrest, parseBody_iframe dst hsrc _ _ _ _ _ pid payload ht01] at hp
              injection hp with hp2
              subst hp2
              refine frame_roundtrip dst hsrc _ hdv hd0 hsv hs0 hdl hdd hsl hsd hne ?_
              rw [hx]
              exact ⟨rfl, Nat.and_le_right, Nat.and_le_right⟩
          · have hnor := not_or.mp ht01
            have ht1 : bytes.getD 14 0 &&& TYPE_MASK = 1 := by omega
            by_cases hs1 : bytes.getD 14 0 &&& 0x0F = CONTROL_RR
            · rw [parseBody_rr dst hsrc _ _ _ _ _ _ ht1 hs1] at hp
              injection hp with hp2
              subst hp2
              refine frame_roundtrip dst hsrc _ hdv hd0 hsv hs0 hdl hdd hsl hsd hne ?_
              rw [hx]
              exact Nat.and_le_right
            · by_cases hs2 : bytes.getD 14 0 &&& 0x0F = CONTROL_RNR
              · rw [parseBody_rnr dst hsrc _ _ _ _ _ _ ht1 hs2] at hp
                injection hp with hp2
                subst hp2
                refine frame_roundtrip dst hsrc _ hdv hd0 hsv hs0 hdl hdd hsl hsd hne ?_
                rw [hx]
                exact Nat.and_le_right
              · by_cases hs3 : bytes.getD 14 0 &&& 0x0F = CONTROL_REJ
                · rw [parseBody_rej dst hsrc _ _ _ _ _ _ ht1 hs3] at hp
                  injection hp with hp2
                  subst hp2
                  rcases hty with hextq | hnr0
                  · rw [hx] at hextq
                    exact absurd hextq (by simp)
                  · rw [hnr0]
                    refine frame_roundtrip dst hsrc _ hdv hd0 hsv hs0 hdl hdd hsl hsd hne ?_
                    rw [hx]
                    exact rfl
                · by_cases hs4 : bytes.getD 14 0 &&& 0x0F = CONTROL_SREJ
                  · rw [parseBody_srej dst hsrc _ _ _ _ _ _ ht1 hs4] at hp
                    injection hp with hp2
                    subst hp2
                    rcases hty with hextq | hnr0
                    · rw [hx] at hextq
                      exact absurd hextq (by simp)
                    · rw [hnr0]
                      refine frame_roundtrip dst hsrc _ hdv hd0 hsv hs0 hdl hdd hsl hsd hne ?_
                      rw [hx]
                      exact rfl
                  · rw [parseBody_s_panicked dst hsrc _ _ _ _ _ _ ht1 hs1 hs2 hs3 hs4] at hp
                    simp at hp

      · next hcond =>
        split at hp
        · simp at hp
        · next hlen16 =>
          have hx : hsrc.rbit_ext = true := by
            cases hb : hsrc.rbit_ext
            · exfalso
              apply hcond
              rw [hb]
              rfl
            · rfl
          have ht3 : ¬ (bytes.getD 14 0 &&& TYPE_MASK = 3) := by
            intro h3
            apply hcond
            rw [h3]
            simp
          by_cases ht01 : bytes.getD 14 0 &&& TYPE_MASK = 0 ∨ bytes.getD 14 0 &&& TYPE_MASK = 2
          · cases hrest : bytes.drop 16 with
            | nil =>
              rw [hrest, parseBody_iframe_nil dst hsrc _ _ _ _ _ ht01] at hp
              simp at hp
            | cons pid payload =>
              rw [hrest, parseBody_iframe dst hsrc _ _ _ _ _ pid payload ht01] at hp
              injection hp with hp2
              subst hp2
              refine frame_roundtrip dst hsrc _ hdv hd0 hsv hs0 hdl hdd hsl hsd hne ?_
              rw [hx]
              exact ⟨rfl, Nat.and_le_right, Nat.and_le_right⟩
          · have hnor := not_or.mp ht01
            have ht1 : bytes.getD 14 0 &&& TYPE_MASK = 1 := by omega
            by_cases hs1 : bytes.getD 14 0 &&& 0x0F = CONTROL_RR
            · rw [parseBody_rr dst hsrc _ _ _ _ _ _ ht1 hs1] at hp
              injection hp with hp2
              subst hp2
              refine frame_roundtrip dst hsrc _ hdv hd0 hsv hs0 hdl hdd hsl hsd hne ?_
              rw [hx]
              exact Nat.and_le_right
            · by_cases hs2 : bytes.getD 14 0 &&& 0x0F = CONTROL_RNR
              · rw [parseBody_rnr dst hsrc _ _ _ _ _ _ ht1 hs2] at hp
                injection hp with hp2
                subst hp2
                refine frame_roundtrip dst hsrc _ hdv hd0 hsv hs0 hdl hdd hsl hsd hne ?_
                rw [hx]
                exact Nat.and_le_right
              · by_cases hs3 : bytes.getD 14 0 &&& 0x0F = CONTROL_REJ
                · rw [parseBody_rej dst hsrc _ _ _ _ _ _ ht1 hs3] at hp
                  injection hp with hp2
                  subst hp2
                  refine frame_roundtrip dst hsrc _ hdv hd0 hsv hs0 hdl hdd hsl hsd hne ?_
                  rw [hx]
                  exact Nat.and_le_right
                · by_cases hs4 : bytes.getD 14 0 &&& 0x0F = CONTROL_SREJ
                  · rw [parseBody_srej dst hsrc _ _ _ _ _ _ ht1 hs4] at hp
                    injection hp with hp2
                    subst hp2
                    refine frame_roundtrip dst hsrc _ hdv hd0 hsv hs0 hdl hdd hsl hsd hne ?_
                    rw [hx]
                    exact Nat.and_le_right
                  · rw [parseBody_s_panicked dst hsrc _ _ _ _ _ _ ht1 hs1 hs2 hs3 hs4] at hp
                    simp at hp

    · simp at hp

/-- Claim C2 counterexample: the 15-byte frame ending in control byte 0x29
parses as a mod-8 REJ with N(R)=1, but serializing that packet emits control
byte 0x09 (the REJ arm of Packet::serialize drops the N(R) field), whose
re-parse is a REJ with N(R)=0, different from the first parse. -/
theorem claim_C2_counterexample :
    Packet.parse (dstBytesC ++ srcBytesR ++ [41]) = ParseResult.ok c2rej ∧
    Packet.serialize c2rej c2rej.rr_extseq = some (dstBytesC ++ srcBytesR ++ [9]) ∧
    Packet.parse (dstBytesC ++ srcBytesR ++ [9]) =
      ParseResult.ok { c2rej with packet_type := .Rej false 0 } ∧
    ParseResult.ok { c2rej with packet_type := .Rej false 0 } ≠ ParseResult.ok c2rej :=
  ⟨by decide, by decide, by decide, by decide⟩

theorem claim_C2_amended_witness :
    (Packet.parse (dstBytesC ++ srcBytesR ++ [63]) = ParseResult.ok c2sabm ∧
     c2sabm.command_response ≠ c2sabm.command_response_la ∧
     afterDash c2sabm.dst.t ≠ some ['0'] ∧ afterDash c2sabm.src.t ≠ some ['0'] ∧
     c2sabm.dst.lowbit = false ∧ c2sabm.dst.rbit_dama = false ∧
     c2sabm.src.lowbit = true ∧ c2sabm.src.rbit_dama = false ∧
     CtlExcl c2sabm) ∧
    (∃ bs, Packet.serialize c2sabm c2sabm.rr_extseq = some bs ∧
      Packet.parse bs = ParseResult.ok c2sabm) :=
  ⟨⟨by decide, by decide, by decide, by decide, by decide, by decide, by decide,
    by decide, rfl⟩,
   claim_C2_amended (dstBytesC ++ srcBytesR ++ [63]) c2sabm (by decide) (by decide)
     (by decide) (by decide) (by decide) (by decide) (by decide) (by decide) rfl⟩

end AX25
